import Mathlib

/-!
# qan/config.go: resolution of the query-analytics run configuration

A shallow embedding of `src/qan/config.go`.

* The package-level `DEFAULT_*` variables are mutable process state; they are
  gathered in the record `Defaults`, which every function reading them takes
  as an argument.
* `map[string]string` is represented by its lookup function.
* `uint` is the 64-bit unsigned integer of the platforms the agent is built
  for; values are natural numbers, reduced modulo `2 ^ 64` where the source
  arithmetic can wrap.
* `strconv.ParseUint` (Go standard library) is embedded for base 10, following
  its loop statement by statement.
* `float64` arithmetic in `uint(float64(Interval) * 0.9)` is embedded exactly:
  IEEE-754 binary64 round-to-nearest-even on the significand, with values
  scaled by `2 ^ 53` so that everything stays in the natural numbers.
* `pct.ToBool` is an external helper and is a parameter.
* `mysql.Connector` is an interface declared outside this file; a connection is
  the record of what its three methods return, and `ReadMySQLConfig` maps the
  defaults before the call to the defaults after it.
-/

namespace Qan

/-! ## Data model -/

/-- The override map `setConfig map[string]string`, as its lookup function:
`setConfig k = some v` when key `k` is present with value `v`. -/
abbrev SetConfig := String → Option String

/-- The map holding exactly the listed bindings (first binding of a key wins). -/
def SetConfig.ofList (kvs : List (String × String)) : SetConfig :=
  fun k => kvs.lookup k

/-- The map `m` with key `k` bound to `v`. -/
def SetConfig.insert (m : SetConfig) (k v : String) : SetConfig :=
  fun k' => if k' = k then some v else m k'

/-- The map `m` with key `k` removed. -/
def SetConfig.erase (m : SetConfig) (k : String) : SetConfig :=
  fun k' => if k' = k then none else m k'

/-- Go map indexing `m[k]` with a single result: the zero value `""` when absent. -/
def SetConfig.index (m : SetConfig) (k : String) : String :=
  (m k).getD ""

/-- The fields of `pc.QAN` that `config.go` sets. -/
structure QAN where
  UUID : String
  CollectFrom : String
  Interval : Nat
  MaxSlowLogSize : Int
  ExampleQueries : Bool
  WorkerRunTime : Nat
  ReportLimit : Nat
deriving DecidableEq

/-- A `float64` value, carried as its IEEE-754 binary64 bit pattern. -/
structure Float64 where
  bits : Nat
deriving DecidableEq

/-- The package-level `var ( DEFAULT_... )` block: the mutable baseline defaults. -/
structure Defaults where
  DEFAULT_COLLECT_FROM : String
  DEFAULT_INTERVAL : Nat
  DEFAULT_LONG_QUERY_TIME : Float64
  DEFAULT_MAX_SLOW_LOG_SIZE : Int
  DEFAULT_REMOVE_OLD_SLOW_LOGS : Bool
  DEFAULT_EXAMPLE_QUERIES : Bool
  DEFAULT_SLOW_LOG_VERBOSITY : String
  DEFAULT_RATE_LIMIT : Nat
  DEFAULT_LOG_SLOW_ADMIN_STATEMENTS : Bool
  DEFAULT_LOG_SLOW_SLAVE_STATEMENTS : Bool
  DEFAULT_WORKER_RUNTIME : Nat
  DEFAULT_REPORT_LIMIT : Nat
deriving DecidableEq

/-- The initial values of the `var` block (lines 29-43). `0.001` is the
binary64 value with bit pattern `0x3F50624DD2F1A9FC`. -/
def Defaults.initial : Defaults where
  DEFAULT_COLLECT_FROM := "slowlog"
  DEFAULT_INTERVAL := 60
  DEFAULT_LONG_QUERY_TIME := ⟨0x3F50624DD2F1A9FC⟩
  DEFAULT_MAX_SLOW_LOG_SIZE := 1073741824
  DEFAULT_REMOVE_OLD_SLOW_LOGS := true
  DEFAULT_EXAMPLE_QUERIES := true
  DEFAULT_SLOW_LOG_VERBOSITY := "full"
  DEFAULT_RATE_LIMIT := 100
  DEFAULT_LOG_SLOW_ADMIN_STATEMENTS := true
  DEFAULT_LOG_SLOW_SLAVE_STATEMENTS := true
  DEFAULT_WORKER_RUNTIME := 55
  DEFAULT_REPORT_LIMIT := 200

/-! ## strconv.ParseUint, base 10 -/

/-- The two sentinel errors of `strconv`: `ErrSyntax` and `ErrRange`. -/
inductive ParseErr where
  | ErrSyntax
  | ErrRange
deriving DecidableEq

/-- The error value `*strconv.NumError`. -/
structure NumError where
  Func : String
  Num : String
  Err : ParseErr
deriving DecidableEq

/-- `maxUint64`. -/
def maxUint64 : Nat := 2 ^ 64 - 1

/-- `cutoff = maxUint64/10 + 1`: the smallest number with `cutoff * 10 > maxUint64`. -/
def cutoff : Nat := maxUint64 / 10 + 1

/-- `lower(c) = c | ('x' - 'X')` on a character code. -/
def lower (c : Nat) : Nat := c ||| (120 - 88)

/-- The `switch` on the byte `c` inside the loop of `strconv.ParseUint` (without
the underscore case, which needs `base == 0`): the digit value `d`, or `none`
for the `default` branch. `48`, `57`, `97`, `122` are the codes of the
characters `0`, `9`, `a`, `z`. -/
def digitValue (c : Nat) : Option Nat :=
  if 48 ≤ c ∧ c ≤ 57 then some (c - 48)
  else if 97 ≤ lower c ∧ lower c ≤ 122 then some (lower c - 97 + 10)
  else none

/-- The `for _, c := range []byte(s)` loop of `strconv.ParseUint` for
`base = 10`, with `n` the accumulator and `maxVal = 1<<bitSize - 1`.
The loop runs over bytes; a character outside ASCII is a run of bytes `>= 0x80`,
the first of which takes the `default` branch, as the character does here. -/
def parseUintLoop (s0 : String) (maxVal : Nat) : List Char → Nat → Except NumError Nat
  | [], n => Except.ok n
  | c :: cs, n =>
    match digitValue c.toNat with
    | none => Except.error ⟨"ParseUint", s0, ParseErr.ErrSyntax⟩
    | some d =>
      if d ≥ 10 then Except.error ⟨"ParseUint", s0, ParseErr.ErrSyntax⟩
      else if n ≥ cutoff then Except.error ⟨"ParseUint", s0, ParseErr.ErrRange⟩
      else
        let n10 := (n * 10) % 2 ^ 64
        let n1 := (n10 + d) % 2 ^ 64
        if n1 < n10 ∨ n1 > maxVal then Except.error ⟨"ParseUint", s0, ParseErr.ErrRange⟩
        else parseUintLoop s0 maxVal cs n1

/-- The call `strconv.ParseUint(s, 10, bitSize)` for `0 < bitSize <= 64`. -/
def ParseUint (s : String) (bitSize : Nat) : Except NumError Nat :=
  if s = "" then Except.error ⟨"ParseUint", s, ParseErr.ErrSyntax⟩
  else parseUintLoop s (2 ^ bitSize - 1) s.data 0

/-! ## float64 arithmetic of the worker run time -/

/-- Round a positive quantity to 53 significant bits, to nearest, ties to even:
the rounding of every binary64 operation whose result is in the normal range. -/
def roundFloat64 (x : Nat) : Nat :=
  if x < 2 ^ 53 then x
  else
    let s := Nat.log2 x + 1 - 53
    let q := x / 2 ^ s
    let r := x % 2 ^ s
    let half := 2 ^ (s - 1)
    if r > half ∨ (r = half ∧ q % 2 = 1) then (q + 1) * 2 ^ s else q * 2 ^ s

/-- The significand of the binary64 constant `0.9 = 0x3FECCCCCCCCCCCCD`:
the constant is `float09 / 2 ^ 53`. -/
def float09 : Nat := 8106479329266893

/-- The expression `uint(float64(interval) * 0.9)` (line 106): conversion of the
unsigned integer to binary64, binary64 multiplication by the constant, and
truncation to an unsigned integer. The product is held scaled by `2 ^ 53`. -/
def workerRunTime (interval : Nat) : Nat :=
  roundFloat64 (roundFloat64 interval * float09) / 2 ^ 53

/-! ## ValidateConfig -/

/-- The three errors `ValidateConfig` constructs with `fmt.Errorf`. -/
inductive ConfigError where
  | collectFrom
  | invalidInterval (val : String) (err : NumError)
  | intervalRange
deriving DecidableEq

/-- The text of `ErrSyntax` and `ErrRange`. -/
def ParseErr.Error : ParseErr → String
  | ParseErr.ErrSyntax => "invalid syntax"
  | ParseErr.ErrRange => "value out of range"

/-- The method `(*NumError).Error`; `quote` is `strconv.Quote`. -/
def NumError.Error (quote : String → String) (e : NumError) : String :=
  "strconv." ++ e.Func ++ ": parsing " ++ quote e.Num ++ ": " ++ e.Err.Error

/-- The message of each error, as formatted by the `fmt.Errorf` calls
(lines 90, 99 and 102). -/
def ConfigError.Error (quote : String → String) : ConfigError → String
  | ConfigError.collectFrom => "CollectFrom must be 'slowlog' or 'perfschema'"
  | ConfigError.invalidInterval val err =>
      "invalid Interval: '" ++ val ++ "': " ++ err.Error quote
  | ConfigError.intervalRange => "Interval must be > 0 and <= 3600 (1 hour)"

/-- Lines 108-113: the `// Bools` block and the final `return runConfig, nil`. -/
def ValidateConfig.bools (toBool : String → Bool) (setConfig : SetConfig)
    (runConfig : QAN) : QAN × Option ConfigError :=
  match setConfig "ExampleQueries" with
  | some val => ({ runConfig with ExampleQueries := toBool val }, none)
  | none => (runConfig, none)

/-- Line 106 and what follows: the recomputation of `WorkerRunTime`. -/
def ValidateConfig.runtime (toBool : String → Bool) (setConfig : SetConfig)
    (runConfig : QAN) : QAN × Option ConfigError :=
  ValidateConfig.bools toBool setConfig
    { runConfig with WorkerRunTime := workerRunTime runConfig.Interval }

/-- Lines 95-105 and what follows: the `// Integers` block. The comparison
`n < 0` is on the `uint64` result of `ParseUint`. -/
def ValidateConfig.integers (toBool : String → Bool) (setConfig : SetConfig)
    (runConfig : QAN) : QAN × Option ConfigError :=
  match setConfig "Interval" with
  | some val =>
    match ParseUint val 32 with
    | Except.error err => (runConfig, some (ConfigError.invalidInterval val err))
    | Except.ok n =>
      if n < 0 ∨ n > 3600 then (runConfig, some ConfigError.intervalRange)
      else ValidateConfig.runtime toBool setConfig { runConfig with Interval := n }
  | none => ValidateConfig.runtime toBool setConfig runConfig

/-- Lines 77-85: the composite literal that seeds `runConfig` from the defaults. -/
def ValidateConfig.seed (d : Defaults) (setConfig : SetConfig) : QAN :=
  { UUID := setConfig.index "UUID"
    CollectFrom := d.DEFAULT_COLLECT_FROM
    Interval := d.DEFAULT_INTERVAL
    MaxSlowLogSize := d.DEFAULT_MAX_SLOW_LOG_SIZE
    ExampleQueries := d.DEFAULT_EXAMPLE_QUERIES
    WorkerRunTime := d.DEFAULT_WORKER_RUNTIME
    ReportLimit := d.DEFAULT_REPORT_LIMIT }

/-- The function `ValidateConfig` (lines 76-114): the resolved configuration
together with the error, `none` standing for `nil`. -/
def ValidateConfig (d : Defaults) (toBool : String → Bool) (setConfig : SetConfig) :
    QAN × Option ConfigError :=
  let runConfig := ValidateConfig.seed d setConfig
  match setConfig "CollectFrom" with
  | some val =>
    if val ≠ "slowlog" ∧ val ≠ "perfschema" then (runConfig, some ConfigError.collectFrom)
    else ValidateConfig.integers toBool setConfig { runConfig with CollectFrom := val }
  | none => ValidateConfig.integers toBool setConfig runConfig

/-! ## GetMySQLConfig -/

/-- The function `makeSlowLogConfig` (lines 127-141); `on0` and `on1` are the
slice `on` before and after the `append`. -/
def makeSlowLogConfig : List String × List String × Option String :=
  let on0 := ["SET GLOBAL slow_query_log=OFF", "SET GLOBAL log_output='file'"]
  let off := ["SET GLOBAL slow_query_log=OFF"]
  let on1 := on0 ++ ["SET GLOBAL slow_query_log=ON", "SET time_zone='+0:00'"]
  (on1, off, none)

/-- The function `makePerfSchemaConfig` (lines 143-145). -/
def makePerfSchemaConfig : List String × List String × Option String :=
  (["SET time_zone='+0:00'"], [], none)

/-- The function `GetMySQLConfig` (lines 116-125): the enable list, the disable
list and the error message (`none` for `nil`); a `nil` slice is the empty list. -/
def GetMySQLConfig (config : QAN) : List String × List String × Option String :=
  if config.CollectFrom = "slowlog" then makeSlowLogConfig
  else if config.CollectFrom = "perfschema" then makePerfSchemaConfig
  else ([], [], some ("invalid CollectFrom: '" ++ config.CollectFrom
    ++ "'; expected 'slowlog' or 'perfschema'"))

/-! ## Vocabulary of the specification -/

/-- The value of a string of decimal digits, most significant digit first. -/
def decimalValue (s : String) : Nat :=
  s.data.foldl (fun a c => 10 * a + (c.toNat - 48)) 0

/-- An unsigned base-10 integer literal that fits `bitSize` bits: not empty,
made of the digits `0` to `9` only (no sign, no blank), of value below
`2 ^ bitSize`. -/
def IsUintLiteral (s : String) (bitSize : Nat) : Prop :=
  s ≠ "" ∧ (∀ c ∈ s.data, 48 ≤ c.toNat ∧ c.toNat ≤ 57) ∧ decimalValue s < 2 ^ bitSize

instance (s : String) (bitSize : Nat) : Decidable (IsUintLiteral s bitSize) := by
  unfold IsUintLiteral
  infer_instance

/-- The key `CollectFrom` is absent from the map or bound to one of the two
recognised strategies. -/
def CollectFromAbsentOrValid (setConfig : SetConfig) : Prop :=
  setConfig "CollectFrom" = none ∨ setConfig "CollectFrom" = some "slowlog" ∨
    setConfig "CollectFrom" = some "perfschema"

/-- The key `Interval` is absent from the map or bound to a literal of a value
in the range `(0, 3600]` of the specification. -/
def IntervalAbsentOrValid (setConfig : SetConfig) : Prop :=
  ∀ val, setConfig "Interval" = some val →
    IsUintLiteral val 32 ∧ 0 < decimalValue val ∧ decimalValue val ≤ 3600

/-- A coercion in the manner of `pct.ToBool`, for concrete instances. -/
def sampleToBool (s : String) : Bool :=
  s = "true" ∨ s = "yes" ∨ s = "on" ∨ s = "1"

/-! ## ReadMySQLConfig -/

/-- Modelled from the spec: the interface `mysql.Connector` (package `mysql`,
not among the sources), with the three capabilities `config.go` calls on it:
`Connect()`, `GetGlobalVarString(name)` and `GetGlobalVarNumber(name)`. Each may
fail on its own; `none` stands for a `nil` error, and a read returns its value
together with its error. -/
structure Connector where
  Connect : Option String
  GetGlobalVarString : String → String × Option String
  GetGlobalVarNumber : String → Float64 × Option String

/-- The conversion `uint(x)` of a `float64` (line 65): the fraction is discarded.
When the truncated value is no `uint` (negative, `2 ^ 64` or more, infinite or
not a number) the language leaves the result to the implementation; it is
`outOfRange x` here. -/
def float64ToUint (outOfRange : Float64 → Nat) (x : Float64) : Nat :=
  let sign := x.bits / 2 ^ 63 % 2
  let e := x.bits / 2 ^ 52 % 2 ^ 11
  let m := x.bits % 2 ^ 52
  if e = 2047 then outOfRange x
  else
    let t :=
      if e = 0 then 0
      else if e ≥ 1075 then (2 ^ 52 + m) * 2 ^ (e - 1075)
      else (2 ^ 52 + m) / 2 ^ (1075 - e)
    if t = 0 then 0
    else if sign = 1 ∨ t ≥ 2 ^ 64 then outOfRange x
    else t

/-- The function `ReadMySQLConfig` (lines 45-74): the defaults after the call
and the error returned (`none` for `nil`). The errors of the six reads are
discarded, as the source does with `_` (and with `err`, which it never tests
again). -/
def ReadMySQLConfig (toBool : String → Bool) (outOfRange : Float64 → Nat)
    (conn : Connector) (d : Defaults) : Defaults × Option String :=
  match conn.Connect with
  | some err => (d, some err)
  | none =>
    let perfschemaStatus := (conn.GetGlobalVarString "performance_schema").1
    let d1 : Defaults :=
      if toBool perfschemaStatus = true then { d with DEFAULT_COLLECT_FROM := "perfschema" }
      else d
    let d2 : Defaults :=
      { d1 with DEFAULT_LONG_QUERY_TIME := (conn.GetGlobalVarNumber "long_query_time").1 }
    let defaultLogSlowAdminStatements :=
      (conn.GetGlobalVarString "log_slow_admin_statements").1
    let d3 : Defaults :=
      { d2 with DEFAULT_LOG_SLOW_ADMIN_STATEMENTS := toBool defaultLogSlowAdminStatements }
    let defaultRateLimit := (conn.GetGlobalVarNumber "log_slow_rate_limit").1
    let d4 : Defaults :=
      { d3 with DEFAULT_RATE_LIMIT := float64ToUint outOfRange defaultRateLimit }
    let defaultLogSlowSlaveStatements :=
      (conn.GetGlobalVarString "log_slow_slave_statements").1
    let d5 : Defaults :=
      { d4 with DEFAULT_LOG_SLOW_SLAVE_STATEMENTS := toBool defaultLogSlowSlaveStatements }
    let d6 : Defaults :=
      { d5 with DEFAULT_SLOW_LOG_VERBOSITY := (conn.GetGlobalVarString "log_slow_verbosity").1 }
    (d6, none)

/-- The baselines the process can be in: the initial one, and the one left by a
call of `ReadMySQLConfig`, successful or not, against any connection. -/
inductive Reachable (toBool : String → Bool) (outOfRange : Float64 → Nat) : Defaults → Prop where
  | initial : Reachable toBool outOfRange Defaults.initial
  | probe (conn : Connector) (d : Defaults) :
      Reachable toBool outOfRange d →
      Reachable toBool outOfRange (ReadMySQLConfig toBool outOfRange conn d).1

/-- A message contains a text: the text occurs in it as a run of consecutive
characters. -/
def Contains (msg sub : String) : Prop :=
  sub.data <:+: msg.data

instance (msg sub : String) : Decidable (Contains msg sub) := by
  unfold Contains
  infer_instance

/-- A connection that cannot be established. -/
def sampleDownConn : Connector where
  Connect := some "connection refused"
  GetGlobalVarString := fun _ => ("", some "not connected")
  GetGlobalVarNumber := fun _ => (⟨0⟩, some "not connected")

/-- A connection to a server whose `performance_schema` reads `1` and on which
every other read fails with an empty string or a zero. -/
def samplePerfConn : Connector where
  Connect := none
  GetGlobalVarString := fun name =>
    if name = "performance_schema" then ("1", none) else ("", some "unknown variable")
  GetGlobalVarNumber := fun _ => (⟨0⟩, some "unknown variable")

/-- A connection to a server whose `performance_schema` reads `0`, with a rate
limit of `100.0` (bit pattern `0x4059000000000000`). -/
def sampleSlowConn : Connector where
  Connect := none
  GetGlobalVarString := fun name =>
    if name = "log_slow_verbosity" then ("full", none) else ("0", none)
  GetGlobalVarNumber := fun _ => (⟨0x4059000000000000⟩, none)

/-- An implementation choice for conversions out of range. -/
def sampleOutOfRange (_ : Float64) : Nat := 2 ^ 63

/-! ## The worker run time is nine tenths of the interval -/

/-- Rounding never goes below the multiple of the unit in the last place under
the argument, nor above the argument by more than half that unit. -/
theorem roundFloat64_bounds (x : Nat) (hx : 2 ^ 53 ≤ x) :
    x / 2 ^ (Nat.log2 x + 1 - 53) * 2 ^ (Nat.log2 x + 1 - 53) ≤ roundFloat64 x ∧
    roundFloat64 x ≤ x + 2 ^ (Nat.log2 x + 1 - 53 - 1) := by
  have hx0 : x ≠ 0 := by
    have : 0 < 2 ^ 53 := by norm_num
    omega
  have hL : 53 ≤ Nat.log2 x := (Nat.le_log2 hx0).2 hx
  obtain ⟨s, hs⟩ : ∃ s, Nat.log2 x + 1 - 53 = s + 1 := ⟨Nat.log2 x - 53, by omega⟩
  have hdm := Nat.div_add_mod x (2 ^ (s + 1))
  have hmod : x % 2 ^ (s + 1) < 2 ^ (s + 1) := Nat.mod_lt _ (by positivity)
  have hpow : 2 ^ (s + 1) = 2 * 2 ^ s := by rw [pow_succ]; ring
  have hnot : ¬ x < 2 ^ 53 := by omega
  unfold roundFloat64
  rw [if_neg hnot]
  simp only [hs, Nat.add_sub_cancel]
  have hcomm : 2 ^ (s + 1) * (x / 2 ^ (s + 1)) = x / 2 ^ (s + 1) * 2 ^ (s + 1) :=
    Nat.mul_comm _ _
  split
  · rename_i h
    have hr : 2 ^ s ≤ x % 2 ^ (s + 1) := by
      rcases h with h | h
      · omega
      · omega
    constructor
    · exact Nat.mul_le_mul_right _ (Nat.le_succ _)
    · rw [Nat.add_mul, Nat.one_mul]
      omega
  · constructor
    · exact Nat.le_refl _
    · omega

/-- Up to `2 ^ 49` the binary64 computation `uint(float64(n) * 0.9)` is exactly
the integer `floor(9 n / 10)`. -/
theorem workerRunTime_eq (n : Nat) (h : n ≤ 2 ^ 49) : workerRunTime n = 9 * n / 10 := by
  have h49 : (2:Nat) ^ 49 = 562949953421312 := by norm_num
  have h53 : (2:Nat) ^ 53 = 9007199254740992 := by norm_num
  have hn : roundFloat64 n = n := by
    unfold roundFloat64
    rw [if_pos (by omega)]
  unfold workerRunTime
  rw [hn]
  by_cases hP : n * float09 < 2 ^ 53
  · have hr : roundFloat64 (n * float09) = n * float09 := by
      unfold roundFloat64
      rw [if_pos hP]
    rw [hr, Nat.div_eq_of_lt hP]
    unfold float09 at hP
    omega
  · have hP' : 2 ^ 53 ≤ n * float09 := Nat.le_of_not_lt hP
    have hx0 : n * float09 ≠ 0 := by
      have : 0 < 2 ^ 53 := by norm_num
      omega
    obtain ⟨hlo, hhi⟩ := roundFloat64_bounds _ hP'
    have hL : 53 ≤ Nat.log2 (n * float09) := (Nat.le_log2 hx0).2 hP'
    have hLle : 2 ^ Nat.log2 (n * float09) ≤ n * float09 := Nat.log2_self_le hx0
    have hLlt : Nat.log2 (n * float09) < 102 := by
      rw [Nat.log2_lt hx0]
      have : (2:Nat) ^ 102 = 5070602400912917605986812821504 := by norm_num
      unfold float09
      omega
    generalize Nat.log2 (n * float09) = L at *
    obtain ⟨s, hs⟩ : ∃ s, L = s + 53 := ⟨L - 53, by omega⟩
    subst hs
    have e1 : s + 53 + 1 - 53 = s + 1 := by omega
    rw [e1] at hlo hhi
    simp only [Nat.add_sub_cancel] at hhi
    have hpow : 2 ^ (s + 53) = 2 ^ s * 2 ^ 53 := pow_add 2 s 53
    rw [hpow] at hLle
    have hs52 : s + 1 + (52 - s) = 53 := by omega
    have hsplit : 2 ^ 53 = 2 ^ (52 - s) * 2 ^ (s + 1) := by
      rw [← pow_add, Nat.add_comm, hs52]
    have hQP : 9 * n / 10 * 2 ^ 53 ≤ n * float09 := by
      unfold float09
      omega
    have hq : 9 * n / 10 * 2 ^ (52 - s) ≤ n * float09 / 2 ^ (s + 1) := by
      rw [Nat.le_div_iff_mul_le (by positivity)]
      calc 9 * n / 10 * 2 ^ (52 - s) * 2 ^ (s + 1)
          = 9 * n / 10 * 2 ^ 53 := by rw [Nat.mul_assoc, ← hsplit]
        _ ≤ n * float09 := hQP
    have hlow : 9 * n / 10 * 2 ^ 53 ≤ roundFloat64 (n * float09) := by
      calc 9 * n / 10 * 2 ^ 53
          = 9 * n / 10 * 2 ^ (52 - s) * 2 ^ (s + 1) := by rw [Nat.mul_assoc, ← hsplit]
        _ ≤ n * float09 / 2 ^ (s + 1) * 2 ^ (s + 1) := Nat.mul_le_mul_right _ hq
        _ ≤ roundFloat64 (n * float09) := hlo
    have hup : roundFloat64 (n * float09) < (9 * n / 10 + 1) * 2 ^ 53 := by
      generalize roundFloat64 (n * float09) = R at *
      generalize 2 ^ s = A at *
      unfold float09 at *
      omega
    exact Nat.div_eq_of_lt_le hlow hup

/-! ## strconv.ParseUint accepts exactly the unsigned literals -/

/-- A digit value below ten comes from one of the characters `0` to `9`. -/
theorem digitValue_lt_ten (c d : Nat) (h : digitValue c = some d) (hd : d < 10) :
    (48 ≤ c ∧ c ≤ 57) ∧ d = c - 48 := by
  unfold digitValue at h
  split at h
  · rename_i hc
    exact ⟨hc, by simpa using h.symm⟩
  · split at h
    · simp at h
      omega
    · simp at h

/-- The characters `0` to `9` have the digit values 0 to 9. -/
theorem digitValue_digit (c : Nat) (h : 48 ≤ c ∧ c ≤ 57) : digitValue c = some (c - 48) := by
  unfold digitValue
  rw [if_pos h]

/-- Reading further digits never lowers the accumulated value. -/
theorem foldl_decimal_mono (cs : List Char) (n : Nat) :
    n ≤ cs.foldl (fun a c => 10 * a + (c.toNat - 48)) n := by
  induction cs generalizing n with
  | nil => exact Nat.le_refl _
  | cons c cs ih =>
    simp only [List.foldl_cons]
    exact Nat.le_trans (by omega) (ih _)

/-- On digits whose value stays within `maxVal`, the loop returns that value. -/
theorem parseUintLoop_digits (s0 : String) (maxVal : Nat) (hmax : maxVal < 2 ^ 64)
    (cs : List Char) (n : Nat)
    (hdig : ∀ c ∈ cs, 48 ≤ c.toNat ∧ c.toNat ≤ 57)
    (hval : cs.foldl (fun a c => 10 * a + (c.toNat - 48)) n ≤ maxVal) :
    parseUintLoop s0 maxVal cs n =
      Except.ok (cs.foldl (fun a c => 10 * a + (c.toNat - 48)) n) := by
  induction cs generalizing n with
  | nil => rfl
  | cons c cs ih =>
    have hc := hdig c (List.mem_cons_self _ _)
    simp only [List.foldl_cons] at hval ⊢
    have hstep := foldl_decimal_mono cs (10 * n + (c.toNat - 48))
    have h64 : (2:Nat) ^ 64 = 18446744073709551616 := by norm_num
    have hn1 : 10 * n + (c.toNat - 48) ≤ maxVal := Nat.le_trans hstep hval
    have hlt : 10 * n + (c.toNat - 48) < 18446744073709551616 := by omega
    unfold parseUintLoop
    rw [digitValue_digit _ hc]
    simp only [ge_iff_le]
    rw [if_neg (by omega), if_neg (by unfold cutoff maxUint64; omega)]
    have e10 : n * 10 % 2 ^ 64 = 10 * n := by
      rw [h64]; omega
    have e1 : (10 * n + (c.toNat - 48)) % 2 ^ 64 = 10 * n + (c.toNat - 48) := by
      rw [h64]; omega
    rw [e10, e1, if_neg (by omega)]
    exact ih _ (fun c' hc' => hdig c' (List.mem_cons_of_mem _ hc')) hval

/-- When the loop returns a value, it has read digits only, the value is the
decimal value of what it read, and it is within `maxVal`. -/
theorem parseUintLoop_ok (s0 : String) (maxVal : Nat)
    (cs : List Char) (n v : Nat) (h : parseUintLoop s0 maxVal cs n = Except.ok v) :
    (∀ c ∈ cs, 48 ≤ c.toNat ∧ c.toNat ≤ 57) ∧
    cs.foldl (fun a c => 10 * a + (c.toNat - 48)) n = v ∧ (cs ≠ [] → v ≤ maxVal) := by
  induction cs generalizing n with
  | nil =>
    simp only [parseUintLoop, Except.ok.injEq] at h
    simp [h]
  | cons c cs ih =>
    have h64 : (2:Nat) ^ 64 = 18446744073709551616 := by norm_num
    unfold parseUintLoop at h
    split at h
    · simp at h
    · rename_i d hd
      simp only [ge_iff_le] at h
      split at h
      · simp at h
      · rename_i hd10
        split at h
        · simp at h
        · rename_i hcut
          split at h
          · simp at h
          · rename_i hov
            obtain ⟨hc, hdv⟩ := digitValue_lt_ten _ _ hd (by omega)
            have hn : n * 10 < 18446744073709551616 := by
              unfold cutoff maxUint64 at hcut; omega
            have e10 : n * 10 % 2 ^ 64 = 10 * n := by
              rw [h64]; omega
            rw [e10] at h hov
            have hnw : 10 * n + d < 2 ^ 64 := by
              by_contra hcon
              have : (10 * n + d) % 2 ^ 64 = 10 * n + d - 2 ^ 64 := by
                rw [h64] at hcon ⊢; omega
              rw [this, h64] at hov
              omega
            have e1 : (10 * n + d) % 2 ^ 64 = 10 * n + d := Nat.mod_eq_of_lt hnw
            rw [e1] at h hov
            obtain ⟨h1, h2, h3⟩ := ih _ h
            refine ⟨?_, ?_, ?_⟩
            · intro c' hc'
              rcases List.mem_cons.1 hc' with rfl | hc'
              · exact hc
              · exact h1 c' hc'
            · simp only [List.foldl_cons]
              rw [← hdv]; exact h2
            · intro _
              by_cases hcs : cs = []
              · subst hcs
                simp only [List.foldl_nil] at h2
                omega
              · exact h3 hcs


/-- The character that `Nat.digitChar` gives for a digit below ten. -/
theorem digitChar_toNat (d : Nat) (h : d < 10) :
    (48 ≤ (Nat.digitChar d).toNat ∧ (Nat.digitChar d).toNat ≤ 57) ∧
      (Nat.digitChar d).toNat - 48 = d := by
  interval_cases d <;> decide

/-- The digits that `Nat.toDigitsCore 10` puts in front of its accumulator: at
least one, all decimal, of value `n`. -/
theorem toDigitsCore_decimal (fuel : Nat) : ∀ (n : Nat) (ds : List Char), n < fuel →
    ∃ pre : List Char, Nat.toDigitsCore 10 fuel n ds = pre ++ ds ∧ pre ≠ [] ∧
      (∀ c ∈ pre, 48 ≤ c.toNat ∧ c.toNat ≤ 57) ∧
      pre.foldl (fun a c => 10 * a + (c.toNat - 48)) 0 = n := by
  induction fuel with
  | zero => intro n ds h; omega
  | succ fuel ih =>
    intro n ds h
    obtain ⟨hd1, hd2⟩ := digitChar_toNat (n % 10) (Nat.mod_lt _ (by norm_num))
    unfold Nat.toDigitsCore
    by_cases h0 : n / 10 = 0
    · simp only [h0, if_true]
      refine ⟨[Nat.digitChar (n % 10)], rfl, by simp, ?_, ?_⟩
      · intro c hc
        rw [List.mem_singleton] at hc
        subst hc
        exact hd1
      · simp only [List.foldl_cons, List.foldl_nil]
        omega
    · simp only [h0, if_false]
      obtain ⟨pre, hpre, _, hdig, hval⟩ :=
        ih (n / 10) (Nat.digitChar (n % 10) :: ds) (by omega)
      refine ⟨pre ++ [Nat.digitChar (n % 10)], ?_, by simp, ?_, ?_⟩
      · rw [hpre]; simp
      · intro c hc
        rcases List.mem_append.1 hc with hc | hc
        · exact hdig c hc
        · rw [List.mem_singleton] at hc
          subst hc
          exact hd1
      · rw [List.foldl_append, hval]
        simp only [List.foldl_cons, List.foldl_nil]
        omega

/-- The decimal representation of `n` is an unsigned literal of value `n`. -/
theorem toString_isUintLiteral (n : Nat) (bitSize : Nat) (h : n < 2 ^ bitSize) :
    IsUintLiteral (toString n) bitSize ∧ decimalValue (toString n) = n := by
  obtain ⟨pre, hpre, hne, hdig, hval⟩ := toDigitsCore_decimal (n + 1) n [] (Nat.lt_succ_self n)
  rw [List.append_nil] at hpre
  have hdata : (toString n).data = pre := hpre
  have hv : decimalValue (toString n) = n := by
    unfold decimalValue
    rw [hdata, hval]
  refine ⟨⟨?_, ?_, ?_⟩, hv⟩
  · intro hs
    rw [hs] at hdata
    exact hne hdata.symm
  · rw [hdata]; exact hdig
  · rw [hv]; exact h

/-- The parser accepts every unsigned literal and returns its value. -/
theorem ParseUint_of_literal (s : String) (bitSize : Nat) (hb : bitSize ≤ 64)
    (h : IsUintLiteral s bitSize) : ParseUint s bitSize = Except.ok (decimalValue s) := by
  obtain ⟨hne, hdig, hval⟩ := h
  have hpos : 0 < 2 ^ bitSize := by positivity
  have hle : 2 ^ bitSize ≤ 2 ^ 64 := Nat.pow_le_pow_right (by norm_num) hb
  unfold ParseUint
  rw [if_neg hne]
  exact parseUintLoop_digits s _ (by omega) s.data 0 hdig (by unfold decimalValue at hval; omega)

/-- The parser accepts unsigned literals only. -/
theorem ParseUint_ok (s : String) (bitSize v : Nat) (h : ParseUint s bitSize = Except.ok v) :
    IsUintLiteral s bitSize ∧ decimalValue s = v := by
  have hpos : 0 < 2 ^ bitSize := by positivity
  unfold ParseUint at h
  split at h
  · simp at h
  · rename_i hne
    obtain ⟨h1, h2, h3⟩ := parseUintLoop_ok _ _ _ _ _ h
    have hdata : s.data ≠ [] := by
      intro hd
      apply hne
      cases s
      simp_all
    have := h3 hdata
    exact ⟨⟨hne, h1, by unfold decimalValue; rw [h2]; omega⟩, h2⟩

/-! ## The stages of ValidateConfig -/

/-- The `Bools` block returns no error. -/
theorem bools_snd (toBool : String → Bool) (m : SetConfig) (rc : QAN) :
    (ValidateConfig.bools toBool m rc).2 = none := by
  unfold ValidateConfig.bools
  split <;> rfl

/-- The `Bools` block changes `ExampleQueries` at most. -/
theorem bools_fst (toBool : String → Bool) (m : SetConfig) (rc : QAN) :
    (ValidateConfig.bools toBool m rc).1 =
      { rc with ExampleQueries := (m "ExampleQueries").elim rc.ExampleQueries toBool } := by
  unfold ValidateConfig.bools
  split <;> rename_i h <;> simp [h]

/-- From line 106 on, no error is returned. -/
theorem runtime_snd (toBool : String → Bool) (m : SetConfig) (rc : QAN) :
    (ValidateConfig.runtime toBool m rc).2 = none :=
  bools_snd _ _ _

/-- From line 106 on, `WorkerRunTime` is recomputed and `ExampleQueries` coerced. -/
theorem runtime_fst (toBool : String → Bool) (m : SetConfig) (rc : QAN) :
    (ValidateConfig.runtime toBool m rc).1 =
      { rc with
        WorkerRunTime := workerRunTime rc.Interval
        ExampleQueries := (m "ExampleQueries").elim rc.ExampleQueries toBool } := by
  unfold ValidateConfig.runtime
  rw [bools_fst]

/-- The `Integers` block on a literal within the upper bound: the run goes on
with the parsed value. -/
theorem integers_of_literal (toBool : String → Bool) (m : SetConfig) (rc : QAN) (val : String)
    (hm : m "Interval" = some val) (hlit : IsUintLiteral val 32)
    (hle : decimalValue val ≤ 3600) :
    ValidateConfig.integers toBool m rc =
      ValidateConfig.runtime toBool m { rc with Interval := decimalValue val } := by
  unfold ValidateConfig.integers
  simp only [hm, ParseUint_of_literal val 32 (by norm_num) hlit]
  rw [if_neg (by omega)]

/-- The `Integers` block without the key. -/
theorem integers_of_absent (toBool : String → Bool) (m : SetConfig) (rc : QAN)
    (hm : m "Interval" = none) :
    ValidateConfig.integers toBool m rc = ValidateConfig.runtime toBool m rc := by
  unfold ValidateConfig.integers
  simp only [hm]

/-- The `Integers` block on a string that is no unsigned 32-bit literal returns
its argument with the parse error. -/
theorem integers_of_nonliteral (toBool : String → Bool) (m : SetConfig) (rc : QAN)
    (val : String) (hm : m "Interval" = some val) (hbad : ¬ IsUintLiteral val 32) :
    ∃ e, ValidateConfig.integers toBool m rc = (rc, some (ConfigError.invalidInterval val e)) := by
  unfold ValidateConfig.integers
  simp only [hm]
  cases hp : ParseUint val 32 with
  | error e => exact ⟨e, rfl⟩
  | ok n => exact absurd (ParseUint_ok _ _ _ hp).1 hbad

/-- The `Integers` block on a literal above 3600 returns its argument with the
range error. -/
theorem integers_of_large (toBool : String → Bool) (m : SetConfig) (rc : QAN)
    (val : String) (hm : m "Interval" = some val) (hlit : IsUintLiteral val 32)
    (hbig : 3600 < decimalValue val) :
    ValidateConfig.integers toBool m rc = (rc, some ConfigError.intervalRange) := by
  unfold ValidateConfig.integers
  simp only [hm, ParseUint_of_literal val 32 (by norm_num) hlit]
  rw [if_pos (Or.inr hbig)]

/-- Unless `CollectFrom` is bound to an unrecognised string, `ValidateConfig`
is the `Integers` block run on the seed with the strategy overridden. -/
theorem ValidateConfig_of_collectFrom (d : Defaults) (toBool : String → Bool) (m : SetConfig)
    (h : CollectFromAbsentOrValid m) :
    ValidateConfig d toBool m = ValidateConfig.integers toBool m
      { ValidateConfig.seed d m with
        CollectFrom := (m "CollectFrom").getD d.DEFAULT_COLLECT_FROM } := by
  unfold ValidateConfig
  rcases h with h | h | h <;> simp [h, ValidateConfig.seed]


/-- The `Integers` block and what follows it leave `CollectFrom` as it was,
whether they end in an error or not. -/
theorem integers_collectFrom (toBool : String → Bool) (m : SetConfig) (rc : QAN) :
    (ValidateConfig.integers toBool m rc).1.CollectFrom = rc.CollectFrom := by
  unfold ValidateConfig.integers
  split
  · split
    · rfl
    · split
      · rfl
      · rw [runtime_fst]
  · rw [runtime_fst]

/-- When `ValidateConfig` returns no error, the resolved strategy is the
override when the key is present and the baseline default otherwise. -/
theorem ValidateConfig_collectFrom_of_ok (d : Defaults) (toBool : String → Bool)
    (m : SetConfig) (hok : (ValidateConfig d toBool m).2 = none) :
    (ValidateConfig d toBool m).1.CollectFrom =
      (m "CollectFrom").getD d.DEFAULT_COLLECT_FROM := by
  unfold ValidateConfig at hok ⊢
  cases hC : m "CollectFrom" with
  | none =>
    simp only [hC]
    rw [integers_collectFrom]
    rfl
  | some val =>
    simp only [hC] at hok ⊢
    split
    · rename_i hbad
      rw [if_pos hbad] at hok
      simp at hok
    · rw [integers_collectFrom]
      rfl

/-! ## Interval overrides -/

/-- C1 (the code at the failing input): on the map that holds only
`Interval = "0"`, `ValidateConfig` returns no error and a configuration with
`Interval = 0` and `WorkerRunTime = 0`; the test `n < 0` on the unsigned parse
result never holds, so an Interval of 0 is not rejected. -/
theorem C1_interval_zero_accepted (d : Defaults) (toBool : String → Bool) :
    ValidateConfig d toBool (SetConfig.ofList [("Interval", "0")]) =
      ({ UUID := ""
         CollectFrom := d.DEFAULT_COLLECT_FROM
         Interval := 0
         MaxSlowLogSize := d.DEFAULT_MAX_SLOW_LOG_SIZE
         ExampleQueries := d.DEFAULT_EXAMPLE_QUERIES
         WorkerRunTime := 0
         ReportLimit := d.DEFAULT_REPORT_LIMIT }, none) := by
  have hw : workerRunTime 0 = 0 := workerRunTime_eq 0 (Nat.zero_le _)
  rw [ValidateConfig_of_collectFrom d toBool _ (Or.inl rfl),
    integers_of_literal toBool _ _ "0" rfl (by decide) (by decide)]
  refine Prod.ext ?_ (runtime_snd _ _ _)
  rw [runtime_fst]
  have hv : decimalValue "0" = 0 := by decide
  simp only [hv, hw]
  rfl

/-- C2: for `0 < n <= 3600`, on every map whose `Interval` is the decimal
representation of `n` and whose `CollectFrom` is absent or valid,
`ValidateConfig` returns no error, `Interval = n` and
`WorkerRunTime = floor(9 n / 10)`. -/
theorem C2_valid_interval (d : Defaults) (toBool : String → Bool) (setConfig : SetConfig)
    (n : Nat) (hpos : 0 < n) (hle : n ≤ 3600)
    (hI : setConfig "Interval" = some (toString n))
    (hC : CollectFromAbsentOrValid setConfig) :
    (ValidateConfig d toBool setConfig).2 = none ∧
      (ValidateConfig d toBool setConfig).1.Interval = n ∧
      (ValidateConfig d toBool setConfig).1.WorkerRunTime = 9 * n / 10 := by
  have h32 : n < 2 ^ 32 := by
    have : (2:Nat) ^ 32 = 4294967296 := by norm_num
    omega
  obtain ⟨hlit, hv⟩ := toString_isUintLiteral n 32 h32
  have h49 : n ≤ 2 ^ 49 := by
    have : (2:Nat) ^ 49 = 562949953421312 := by norm_num
    omega
  rw [ValidateConfig_of_collectFrom d toBool _ hC,
    integers_of_literal toBool _ _ _ hI hlit (by omega), hv]
  refine ⟨runtime_snd _ _ _, ?_, ?_⟩
  · rw [runtime_fst]
  · rw [runtime_fst]
    exact workerRunTime_eq n h49

/-- C2 at `Interval = "3600"`, the upper end of the range. -/
theorem C2_valid_interval_witness :
    (ValidateConfig Defaults.initial sampleToBool
        (SetConfig.ofList [("Interval", "3600")])).2 = none ∧
      (ValidateConfig Defaults.initial sampleToBool
        (SetConfig.ofList [("Interval", "3600")])).1.Interval = 3600 ∧
      (ValidateConfig Defaults.initial sampleToBool
        (SetConfig.ofList [("Interval", "3600")])).1.WorkerRunTime = 9 * 3600 / 10 :=
  C2_valid_interval Defaults.initial sampleToBool (SetConfig.ofList [("Interval", "3600")])
    3600 (by decide) (by decide) (by decide) (Or.inl (by decide))

/-- C3 (the code at the failing input): with the initial defaults, on the map
that holds only `Interval = "3601"`, `ValidateConfig` returns the range error
together with `Interval = 60` and `WorkerRunTime = 55`, the stored default; this
is not `floor(0.9 * 60) = 54`. -/
theorem C3_error_path_stale_runtime (toBool : String → Bool) :
    ValidateConfig Defaults.initial toBool (SetConfig.ofList [("Interval", "3601")]) =
      ({ UUID := ""
         CollectFrom := "slowlog"
         Interval := 60
         MaxSlowLogSize := 1073741824
         ExampleQueries := true
         WorkerRunTime := 55
         ReportLimit := 200 }, some ConfigError.intervalRange) ∧
    (ValidateConfig Defaults.initial toBool
        (SetConfig.ofList [("Interval", "3601")])).1.WorkerRunTime ≠
      9 * (ValidateConfig Defaults.initial toBool
        (SetConfig.ofList [("Interval", "3601")])).1.Interval / 10 := by
  have h : ValidateConfig Defaults.initial toBool (SetConfig.ofList [("Interval", "3601")]) =
      ({ UUID := ""
         CollectFrom := "slowlog"
         Interval := 60
         MaxSlowLogSize := 1073741824
         ExampleQueries := true
         WorkerRunTime := 55
         ReportLimit := 200 }, some ConfigError.intervalRange) := by
    rw [ValidateConfig_of_collectFrom _ toBool _ (Or.inl rfl),
      integers_of_large toBool _ _ "3601" rfl (by decide) (by decide)]
    rfl
  refine ⟨h, ?_⟩
  rw [h]
  decide

/-- C4: on every map whose `CollectFrom` is absent or valid and whose
`Interval` is bound to a string that is no unsigned base-10 literal of 32 bits,
or to a literal of a value above 3600, `ValidateConfig` returns an error: the
parse error carrying the string in the first case, the range error in the
second. -/
theorem C4_bad_interval_rejected (d : Defaults) (toBool : String → Bool)
    (setConfig : SetConfig) (val : String)
    (hI : setConfig "Interval" = some val)
    (hC : CollectFromAbsentOrValid setConfig)
    (hbad : ¬ IsUintLiteral val 32 ∨ 3600 < decimalValue val) :
    (ValidateConfig d toBool setConfig).2 ≠ none ∧
      (¬ IsUintLiteral val 32 →
        ∃ e, (ValidateConfig d toBool setConfig).2 = some (ConfigError.invalidInterval val e)) ∧
      (IsUintLiteral val 32 →
        (ValidateConfig d toBool setConfig).2 = some ConfigError.intervalRange) := by
  rw [ValidateConfig_of_collectFrom d toBool _ hC]
  by_cases hlit : IsUintLiteral val 32
  · have hbig : 3600 < decimalValue val := by
      rcases hbad with h | h
      · exact absurd hlit h
      · exact h
    rw [integers_of_large toBool _ _ val hI hlit hbig]
    exact ⟨by simp, fun h => absurd hlit h, fun _ => rfl⟩
  · obtain ⟨e, he⟩ := integers_of_nonliteral toBool setConfig
      { ValidateConfig.seed d setConfig with
        CollectFrom := (setConfig "CollectFrom").getD d.DEFAULT_COLLECT_FROM } val hI hlit
    rw [he]
    exact ⟨by simp, fun _ => ⟨e, rfl⟩, fun h => absurd h hlit⟩

/-- C4 at `Interval = "3601"` with `CollectFrom = "perfschema"`, and at
`Interval = "+5"` alone. -/
theorem C4_bad_interval_rejected_witness :
    (ValidateConfig Defaults.initial sampleToBool
        (SetConfig.ofList [("CollectFrom", "perfschema"), ("Interval", "3601")])).2
      = some ConfigError.intervalRange ∧
    (ValidateConfig Defaults.initial sampleToBool
        (SetConfig.ofList [("Interval", "+5")])).2 ≠ none :=
  ⟨(C4_bad_interval_rejected Defaults.initial sampleToBool
      (SetConfig.ofList [("CollectFrom", "perfschema"), ("Interval", "3601")]) "3601"
      (by decide) (Or.inr (Or.inr (by decide))) (Or.inr (by decide))).2.2 (by decide),
    (C4_bad_interval_rejected Defaults.initial sampleToBool
      (SetConfig.ofList [("Interval", "+5")]) "+5"
      (by decide) (Or.inl (by decide)) (Or.inl (by decide))).1⟩

/-! ## Strategy and defaults -/

/-- C5: on every map that binds `CollectFrom` to `v`: if `v` is `"slowlog"` or
`"perfschema"` and `Interval` is absent or a literal in `(0, 3600]`,
`ValidateConfig` returns no error and `CollectFrom = v`; if `v` is any other
string it returns the `CollectFrom` error, whatever the other keys hold. -/
theorem C5_collectFrom_override (d : Defaults) (toBool : String → Bool)
    (setConfig : SetConfig) (v : String) (hv : setConfig "CollectFrom" = some v) :
    ((v = "slowlog" ∨ v = "perfschema") → IntervalAbsentOrValid setConfig →
      (ValidateConfig d toBool setConfig).2 = none ∧
        (ValidateConfig d toBool setConfig).1.CollectFrom = v) ∧
    (v ≠ "slowlog" → v ≠ "perfschema" →
      (ValidateConfig d toBool setConfig).2 = some ConfigError.collectFrom) := by
  constructor
  · intro hok hint
    have hC : CollectFromAbsentOrValid setConfig := by
      rcases hok with h | h
      · exact Or.inr (Or.inl (by rw [hv, h]))
      · exact Or.inr (Or.inr (by rw [hv, h]))
    rw [ValidateConfig_of_collectFrom d toBool _ hC]
    refine ⟨?_, by rw [integers_collectFrom, hv]; rfl⟩
    cases hI : setConfig "Interval" with
    | none => rw [integers_of_absent toBool _ _ hI]; exact runtime_snd _ _ _
    | some val =>
      obtain ⟨hlit, _, hle⟩ := hint val hI
      rw [integers_of_literal toBool _ _ val hI hlit hle]
      exact runtime_snd _ _ _
  · intro h1 h2
    unfold ValidateConfig
    simp only [hv]
    rw [if_pos ⟨h1, h2⟩]

/-- C5 at `CollectFrom = "perfschema"` with `Interval = "30"`, and at
`CollectFrom = "Slowlog"` with the same interval. -/
theorem C5_collectFrom_override_witness :
    ((ValidateConfig Defaults.initial sampleToBool
        (SetConfig.ofList [("CollectFrom", "perfschema"), ("Interval", "30")])).2 = none ∧
      (ValidateConfig Defaults.initial sampleToBool
        (SetConfig.ofList [("CollectFrom", "perfschema"), ("Interval", "30")])).1.CollectFrom
        = "perfschema") ∧
    (ValidateConfig Defaults.initial sampleToBool
        (SetConfig.ofList [("CollectFrom", "Slowlog"), ("Interval", "30")])).2
      = some ConfigError.collectFrom :=
  ⟨(C5_collectFrom_override Defaults.initial sampleToBool
      (SetConfig.ofList [("CollectFrom", "perfschema"), ("Interval", "30")]) "perfschema"
      (by decide)).1 (Or.inr rfl)
      (fun val h => by
        have hval : val = "30" := by
          have h30 : SetConfig.ofList [("CollectFrom", "perfschema"), ("Interval", "30")]
              "Interval" = some "30" := by decide
          rw [h30] at h
          exact (Option.some.inj h).symm
        subst hval
        decide),
    (C5_collectFrom_override Defaults.initial sampleToBool
      (SetConfig.ofList [("CollectFrom", "Slowlog"), ("Interval", "30")]) "Slowlog"
      (by decide)).2 (by decide) (by decide)⟩

/-- C6: on a map without the keys `CollectFrom`, `Interval` and `ExampleQueries`,
`ValidateConfig` returns no error, the baseline defaults in `CollectFrom`,
`Interval`, `MaxSlowLogSize`, `ExampleQueries` and `ReportLimit`, and
`WorkerRunTime = floor(9 * default Interval / 10)`; with the initial baseline
that is 54, not the stored default 55. The default interval is taken below
`2 ^ 49` seconds, where the binary64 product is exact enough. -/
theorem C6_no_overrides (d : Defaults) (toBool : String → Bool) (setConfig : SetConfig)
    (hC : setConfig "CollectFrom" = none) (hI : setConfig "Interval" = none)
    (hE : setConfig "ExampleQueries" = none) (hd : d.DEFAULT_INTERVAL ≤ 2 ^ 49) :
    (ValidateConfig d toBool setConfig).2 = none ∧
      (ValidateConfig d toBool setConfig).1.CollectFrom = d.DEFAULT_COLLECT_FROM ∧
      (ValidateConfig d toBool setConfig).1.Interval = d.DEFAULT_INTERVAL ∧
      (ValidateConfig d toBool setConfig).1.MaxSlowLogSize = d.DEFAULT_MAX_SLOW_LOG_SIZE ∧
      (ValidateConfig d toBool setConfig).1.ExampleQueries = d.DEFAULT_EXAMPLE_QUERIES ∧
      (ValidateConfig d toBool setConfig).1.ReportLimit = d.DEFAULT_REPORT_LIMIT ∧
      (ValidateConfig d toBool setConfig).1.WorkerRunTime = 9 * d.DEFAULT_INTERVAL / 10 ∧
      (d = Defaults.initial →
        (ValidateConfig d toBool setConfig).1.WorkerRunTime = 54 ∧
        (ValidateConfig d toBool setConfig).1.WorkerRunTime ≠ d.DEFAULT_WORKER_RUNTIME) := by
  have hw : (ValidateConfig d toBool setConfig).1.WorkerRunTime = 9 * d.DEFAULT_INTERVAL / 10 := by
    rw [ValidateConfig_of_collectFrom d toBool _ (Or.inl hC),
      integers_of_absent toBool _ _ hI, runtime_fst]
    exact workerRunTime_eq _ hd
  refine ⟨?_, ?_, ?_, ?_, ?_, ?_, hw, ?_⟩
  · rw [ValidateConfig_of_collectFrom d toBool _ (Or.inl hC),
      integers_of_absent toBool _ _ hI]
    exact runtime_snd _ _ _
  · rw [ValidateConfig_of_collectFrom d toBool _ (Or.inl hC),
      integers_of_absent toBool _ _ hI, runtime_fst]
    simp [hC, ValidateConfig.seed]
  · rw [ValidateConfig_of_collectFrom d toBool _ (Or.inl hC),
      integers_of_absent toBool _ _ hI, runtime_fst]
    rfl
  · rw [ValidateConfig_of_collectFrom d toBool _ (Or.inl hC),
      integers_of_absent toBool _ _ hI, runtime_fst]
    rfl
  · rw [ValidateConfig_of_collectFrom d toBool _ (Or.inl hC),
      integers_of_absent toBool _ _ hI, runtime_fst]
    simp [hE, ValidateConfig.seed]
  · rw [ValidateConfig_of_collectFrom d toBool _ (Or.inl hC),
      integers_of_absent toBool _ _ hI, runtime_fst]
    rfl
  · intro hd0
    rw [hw, hd0]
    decide

/-- C6 at the initial baseline and the map that holds only a `UUID`. -/
theorem C6_no_overrides_witness :
    (ValidateConfig Defaults.initial sampleToBool (SetConfig.ofList [("UUID", "a1")])).2 = none ∧
      (ValidateConfig Defaults.initial sampleToBool
        (SetConfig.ofList [("UUID", "a1")])).1.Interval = 60 ∧
      (ValidateConfig Defaults.initial sampleToBool
        (SetConfig.ofList [("UUID", "a1")])).1.WorkerRunTime = 54 :=
  have h := C6_no_overrides Defaults.initial sampleToBool (SetConfig.ofList [("UUID", "a1")])
    (by decide) (by decide) (by decide) (by decide)
  ⟨h.1, h.2.2.1, (h.2.2.2.2.2.2.2 rfl).1⟩


/-! ## Directive sequences -/

/-- C7: for every configuration with `CollectFrom = "slowlog"`, `GetMySQLConfig`
returns no error, the enable sequence of four statements (logging off, output
to file, logging on, time zone) and the disable sequence of one statement
(logging off); in the enable sequence the statement that turns logging off is
first, the output switch second, and a statement that turns logging on stands
at a position after both. -/
theorem C7_slowlog_sequences (config : QAN) (h : config.CollectFrom = "slowlog") :
    GetMySQLConfig config =
      (["SET GLOBAL slow_query_log=OFF", "SET GLOBAL log_output='file'",
        "SET GLOBAL slow_query_log=ON", "SET time_zone='+0:00'"],
       ["SET GLOBAL slow_query_log=OFF"], none) ∧
    (GetMySQLConfig config).1[0]? = some "SET GLOBAL slow_query_log=OFF" ∧
    (GetMySQLConfig config).1[1]? = some "SET GLOBAL log_output='file'" ∧
    (∀ i : Nat, (GetMySQLConfig config).1[i]? = some "SET GLOBAL slow_query_log=ON" → 1 < i) := by
  have hg : GetMySQLConfig config =
      (["SET GLOBAL slow_query_log=OFF", "SET GLOBAL log_output='file'",
        "SET GLOBAL slow_query_log=ON", "SET time_zone='+0:00'"],
       ["SET GLOBAL slow_query_log=OFF"], none) := by
    unfold GetMySQLConfig
    rw [if_pos h]
    rfl
  refine ⟨hg, by rw [hg]; rfl, by rw [hg]; rfl, ?_⟩
  intro i hi
  rw [hg] at hi
  match i, hi with
  | 0, hi => exact absurd hi (by decide)
  | 1, hi => exact absurd hi (by decide)
  | i + 2, _ => omega

/-- C7 at a configuration resolved for the slow log. -/
theorem C7_slowlog_sequences_witness :
    GetMySQLConfig
        { UUID := "a1", CollectFrom := "slowlog", Interval := 60, MaxSlowLogSize := 1073741824,
          ExampleQueries := true, WorkerRunTime := 54, ReportLimit := 200 } =
      (["SET GLOBAL slow_query_log=OFF", "SET GLOBAL log_output='file'",
        "SET GLOBAL slow_query_log=ON", "SET time_zone='+0:00'"],
       ["SET GLOBAL slow_query_log=OFF"], none) :=
  (C7_slowlog_sequences
    { UUID := "a1", CollectFrom := "slowlog", Interval := 60, MaxSlowLogSize := 1073741824,
      ExampleQueries := true, WorkerRunTime := 54, ReportLimit := 200 } rfl).1

/-- C8: for every configuration with `CollectFrom = "perfschema"`,
`GetMySQLConfig` returns no error, the enable sequence made of the one
time-zone statement, which is not empty, and an empty disable sequence. -/
theorem C8_perfschema_sequences (config : QAN) (h : config.CollectFrom = "perfschema") :
    GetMySQLConfig config = (["SET time_zone='+0:00'"], [], none) ∧
    (GetMySQLConfig config).1 ≠ [] ∧ (GetMySQLConfig config).2.1 = [] ∧
    (GetMySQLConfig config).2.2 = none := by
  have hs : config.CollectFrom ≠ "slowlog" := by rw [h]; decide
  have hg : GetMySQLConfig config = (["SET time_zone='+0:00'"], [], none) := by
    unfold GetMySQLConfig
    rw [if_neg hs, if_pos h]
    rfl
  refine ⟨hg, ?_, ?_, ?_⟩ <;> simp [hg]

/-- C8 at a configuration resolved for the performance schema. -/
theorem C8_perfschema_sequences_witness :
    GetMySQLConfig
        { UUID := "a1", CollectFrom := "perfschema", Interval := 60,
          MaxSlowLogSize := 1073741824, ExampleQueries := true, WorkerRunTime := 54,
          ReportLimit := 200 } = (["SET time_zone='+0:00'"], [], none) :=
  (C8_perfschema_sequences
    { UUID := "a1", CollectFrom := "perfschema", Interval := 60, MaxSlowLogSize := 1073741824,
      ExampleQueries := true, WorkerRunTime := 54, ReportLimit := 200 } rfl).1

/-- C9: `GetMySQLConfig` returns an error exactly when `CollectFrom` is neither
`"slowlog"` nor `"perfschema"`, and then both statement lists are empty; the
empty string and the strategies written with other letter case are such
values. -/
theorem C9_unsupported_strategy (config : QAN) :
    ((GetMySQLConfig config).2.2 ≠ none ↔
      (config.CollectFrom ≠ "slowlog" ∧ config.CollectFrom ≠ "perfschema")) ∧
    ((GetMySQLConfig config).2.2 ≠ none →
      (GetMySQLConfig config).1 = [] ∧ (GetMySQLConfig config).2.1 = []) ∧
    (GetMySQLConfig { config with CollectFrom := "" }).2.2 ≠ none ∧
    (GetMySQLConfig { config with CollectFrom := "Slowlog" }).2.2 ≠ none ∧
    (GetMySQLConfig { config with CollectFrom := "PERFSCHEMA" }).2.2 ≠ none := by
  have key : ∀ c : QAN, ((GetMySQLConfig c).2.2 ≠ none ↔
      (c.CollectFrom ≠ "slowlog" ∧ c.CollectFrom ≠ "perfschema")) ∧
      ((GetMySQLConfig c).2.2 ≠ none → (GetMySQLConfig c).1 = [] ∧ (GetMySQLConfig c).2.1 = []) := by
    intro c
    unfold GetMySQLConfig
    by_cases h1 : c.CollectFrom = "slowlog"
    · rw [if_pos h1]
      simp [makeSlowLogConfig, h1]
    · rw [if_neg h1]
      by_cases h2 : c.CollectFrom = "perfschema"
      · rw [if_pos h2]
        simp [makePerfSchemaConfig, h2]
      · rw [if_neg h2]
        simp [h1, h2]
  refine ⟨(key config).1, (key config).2, ?_, ?_, ?_⟩
  · exact (key _).1.2 ⟨by simp, by simp⟩
  · exact (key _).1.2 ⟨by simp, by simp⟩
  · exact (key _).1.2 ⟨by simp, by simp⟩

/-- C10: on every map with `CollectFrom = "perfschema"` that `ValidateConfig`
accepts, from any baseline, `GetMySQLConfig` of the resolved configuration is
the performance-schema pair of sequences and not the slow-log pair; with
`CollectFrom = "slowlog"` it is the slow-log pair and not the
performance-schema pair. -/
theorem C10_resolve_then_generate (d : Defaults) (toBool : String → Bool)
    (setConfig : SetConfig) (v : String) (hv : setConfig "CollectFrom" = some v)
    (hok : (ValidateConfig d toBool setConfig).2 = none) :
    (v = "perfschema" →
      GetMySQLConfig (ValidateConfig d toBool setConfig).1
          = (["SET time_zone='+0:00'"], [], none) ∧
        GetMySQLConfig (ValidateConfig d toBool setConfig).1 ≠ makeSlowLogConfig) ∧
    (v = "slowlog" →
      GetMySQLConfig (ValidateConfig d toBool setConfig).1
          = (["SET GLOBAL slow_query_log=OFF", "SET GLOBAL log_output='file'",
              "SET GLOBAL slow_query_log=ON", "SET time_zone='+0:00'"],
             ["SET GLOBAL slow_query_log=OFF"], none) ∧
        GetMySQLConfig (ValidateConfig d toBool setConfig).1 ≠ makePerfSchemaConfig) := by
  have hcf : (ValidateConfig d toBool setConfig).1.CollectFrom = v := by
    rw [ValidateConfig_collectFrom_of_ok d toBool setConfig hok, hv]
    rfl
  constructor
  · intro hp
    have hs : (ValidateConfig d toBool setConfig).1.CollectFrom ≠ "slowlog" := by
      rw [hcf, hp]; decide
    have hg : GetMySQLConfig (ValidateConfig d toBool setConfig).1
        = (["SET time_zone='+0:00'"], [], none) := by
      unfold GetMySQLConfig
      rw [if_neg hs, if_pos (hcf.trans hp)]
      rfl
    exact ⟨hg, by rw [hg]; decide⟩
  · intro hs
    have hg : GetMySQLConfig (ValidateConfig d toBool setConfig).1
        = (["SET GLOBAL slow_query_log=OFF", "SET GLOBAL log_output='file'",
            "SET GLOBAL slow_query_log=ON", "SET time_zone='+0:00'"],
           ["SET GLOBAL slow_query_log=OFF"], none) := by
      unfold GetMySQLConfig
      rw [if_pos (hcf.trans hs)]
      rfl
    exact ⟨hg, by rw [hg]; decide⟩

/-- C10 at `CollectFrom = "perfschema"` over the initial baseline, whose default
strategy is the slow log. -/
theorem C10_resolve_then_generate_witness :
    GetMySQLConfig (ValidateConfig Defaults.initial sampleToBool
        (SetConfig.ofList [("CollectFrom", "perfschema")])).1
      = (["SET time_zone='+0:00'"], [], none) :=
  ((C10_resolve_then_generate Defaults.initial sampleToBool
    (SetConfig.ofList [("CollectFrom", "perfschema")]) "perfschema" (by decide)
    rfl).1 rfl).1


/-! ## The worker run time fits in the interval -/

/-- Rounding raises a value by at most one part in `2 ^ 53`. -/
theorem roundFloat64_le (x : Nat) : roundFloat64 x * 2 ^ 53 ≤ x * (2 ^ 53 + 1) := by
  by_cases hx : x < 2 ^ 53
  · have hr : roundFloat64 x = x := by
      unfold roundFloat64
      rw [if_pos hx]
    rw [hr]
    exact Nat.mul_le_mul_left _ (Nat.le_succ _)
  · have hx' : 2 ^ 53 ≤ x := Nat.le_of_not_lt hx
    have hx0 : x ≠ 0 := by
      have : 0 < 2 ^ 53 := by norm_num
      omega
    obtain ⟨_, hhi⟩ := roundFloat64_bounds x hx'
    have hL : 53 ≤ Nat.log2 x := (Nat.le_log2 hx0).2 hx'
    have hLle : 2 ^ Nat.log2 x ≤ x := Nat.log2_self_le hx0
    generalize Nat.log2 x = L at *
    obtain ⟨s, hs⟩ : ∃ s, L = s + 53 := ⟨L - 53, by omega⟩
    subst hs
    have e1 : s + 53 + 1 - 53 - 1 = s := by omega
    rw [e1] at hhi
    have hpow : 2 ^ (s + 53) = 2 ^ s * 2 ^ 53 := pow_add 2 s 53
    rw [hpow] at hLle
    have h53 : (2:Nat) ^ 53 = 9007199254740992 := by norm_num
    rw [h53] at hLle ⊢
    generalize roundFloat64 x = R at *
    generalize 2 ^ s = A at *
    omega

/-- The binary64 computation `uint(float64(n) * 0.9)` stays below `n`, for an
interval of any size. -/
theorem workerRunTime_lt (n : Nat) (h : 0 < n) : workerRunTime n < n := by
  have h1 := roundFloat64_le n
  have h2 := roundFloat64_le (roundFloat64 n * float09)
  have h53 : (2:Nat) ^ 53 = 9007199254740992 := by norm_num
  unfold workerRunTime
  rw [Nat.div_lt_iff_lt_mul (by positivity)]
  rw [h53] at h1 h2 ⊢
  have h3 : roundFloat64 n * float09 * (9007199254740992 + 1)
      = roundFloat64 n * (float09 * (9007199254740992 + 1)) := Nat.mul_assoc _ _ _
  rw [h3] at h2
  unfold float09 at h2 ⊢
  generalize roundFloat64 (roundFloat64 n * 8106479329266893) = R2 at *
  generalize roundFloat64 n = R1 at *
  omega

/-- The computation maps a zero interval to zero. -/
theorem workerRunTime_zero : workerRunTime 0 = 0 :=
  workerRunTime_eq 0 (Nat.zero_le _)


/-! ## The probe of the server -/

/-- A probe whose connection fails returns the connection error and the
defaults it was given. -/
theorem ReadMySQLConfig_of_connect_error (toBool : String → Bool) (outOfRange : Float64 → Nat)
    (conn : Connector) (d : Defaults) (err : String) (h : conn.Connect = some err) :
    ReadMySQLConfig toBool outOfRange conn d = (d, some err) := by
  unfold ReadMySQLConfig
  simp only [h]

/-- A probe whose connection succeeds returns no error and the defaults with
the six probed fields assigned. -/
theorem ReadMySQLConfig_of_connect_ok (toBool : String → Bool) (outOfRange : Float64 → Nat)
    (conn : Connector) (d : Defaults) (h : conn.Connect = none) :
    ReadMySQLConfig toBool outOfRange conn d =
      ({ d with
          DEFAULT_COLLECT_FROM :=
            if toBool (conn.GetGlobalVarString "performance_schema").1 = true then "perfschema"
            else d.DEFAULT_COLLECT_FROM
          DEFAULT_LONG_QUERY_TIME := (conn.GetGlobalVarNumber "long_query_time").1
          DEFAULT_LOG_SLOW_ADMIN_STATEMENTS :=
            toBool (conn.GetGlobalVarString "log_slow_admin_statements").1
          DEFAULT_RATE_LIMIT :=
            float64ToUint outOfRange (conn.GetGlobalVarNumber "log_slow_rate_limit").1
          DEFAULT_LOG_SLOW_SLAVE_STATEMENTS :=
            toBool (conn.GetGlobalVarString "log_slow_slave_statements").1
          DEFAULT_SLOW_LOG_VERBOSITY := (conn.GetGlobalVarString "log_slow_verbosity").1 },
        none) := by
  unfold ReadMySQLConfig
  simp only [h]
  split <;> rfl

/-- A probe leaves alone the five defaults that `ValidateConfig` reads besides
the strategy. -/
theorem ReadMySQLConfig_frame (toBool : String → Bool) (outOfRange : Float64 → Nat)
    (conn : Connector) (d : Defaults) :
    (ReadMySQLConfig toBool outOfRange conn d).1.DEFAULT_INTERVAL = d.DEFAULT_INTERVAL ∧
    (ReadMySQLConfig toBool outOfRange conn d).1.DEFAULT_MAX_SLOW_LOG_SIZE
      = d.DEFAULT_MAX_SLOW_LOG_SIZE ∧
    (ReadMySQLConfig toBool outOfRange conn d).1.DEFAULT_EXAMPLE_QUERIES
      = d.DEFAULT_EXAMPLE_QUERIES ∧
    (ReadMySQLConfig toBool outOfRange conn d).1.DEFAULT_WORKER_RUNTIME
      = d.DEFAULT_WORKER_RUNTIME ∧
    (ReadMySQLConfig toBool outOfRange conn d).1.DEFAULT_REPORT_LIMIT
      = d.DEFAULT_REPORT_LIMIT := by
  cases h : conn.Connect with
  | some err =>
    rw [ReadMySQLConfig_of_connect_error _ _ _ _ err h]
    exact ⟨rfl, rfl, rfl, rfl, rfl⟩
  | none =>
    rw [ReadMySQLConfig_of_connect_ok _ _ _ _ h]
    exact ⟨rfl, rfl, rfl, rfl, rfl⟩

/-- The strategy after a probe is `"perfschema"` or the one before it. -/
theorem ReadMySQLConfig_collectFrom (toBool : String → Bool) (outOfRange : Float64 → Nat)
    (conn : Connector) (d : Defaults) :
    (ReadMySQLConfig toBool outOfRange conn d).1.DEFAULT_COLLECT_FROM = "perfschema" ∨
    (ReadMySQLConfig toBool outOfRange conn d).1.DEFAULT_COLLECT_FROM = d.DEFAULT_COLLECT_FROM := by
  cases h : conn.Connect with
  | some err =>
    rw [ReadMySQLConfig_of_connect_error _ _ _ _ err h]
    exact Or.inr rfl
  | none =>
    rw [ReadMySQLConfig_of_connect_ok _ _ _ _ h]
    simp only
    split
    · exact Or.inl rfl
    · exact Or.inr rfl

/-- No probe assigns `DEFAULT_INTERVAL`: it is 60 in every reachable baseline. -/
theorem Reachable.interval {toBool : String → Bool} {outOfRange : Float64 → Nat}
    {d : Defaults} (h : Reachable toBool outOfRange d) : d.DEFAULT_INTERVAL = 60 := by
  induction h with
  | initial => rfl
  | probe conn d _ ih =>
    rw [(ReadMySQLConfig_frame toBool outOfRange conn d).1]
    exact ih

/-- In every reachable baseline the default strategy is one of the two that
`GetMySQLConfig` knows. -/
theorem Reachable.collectFrom_valid {toBool : String → Bool} {outOfRange : Float64 → Nat}
    {d : Defaults} (h : Reachable toBool outOfRange d) :
    d.DEFAULT_COLLECT_FROM = "slowlog" ∨ d.DEFAULT_COLLECT_FROM = "perfschema" := by
  induction h with
  | initial => exact Or.inl rfl
  | probe conn d _ ih =>
    rcases ReadMySQLConfig_collectFrom toBool outOfRange conn d with h | h
    · exact Or.inr h
    · rw [h]; exact ih

/-- An override of the strategy that `ValidateConfig` lets through is one of the
two recognised values. -/
theorem ValidateConfig_override_valid (d : Defaults) (toBool : String → Bool) (m : SetConfig)
    (v : String) (hv : m "CollectFrom" = some v) (hok : (ValidateConfig d toBool m).2 = none) :
    v = "slowlog" ∨ v = "perfschema" := by
  by_contra hcon
  have h1 : v ≠ "slowlog" := fun h => hcon (Or.inl h)
  have h2 : v ≠ "perfschema" := fun h => hcon (Or.inr h)
  unfold ValidateConfig at hok
  simp only [hv] at hok
  rw [if_pos ⟨h1, h2⟩] at hok
  simp at hok

/-- C11: `ReadMySQLConfig` returns an error exactly when `Connect` fails, the
error being the one `Connect` returned, and then the defaults after the call
are the defaults before it, field for field. -/
theorem C11_connect_failure (toBool : String → Bool) (outOfRange : Float64 → Nat)
    (conn : Connector) (d : Defaults) :
    ((ReadMySQLConfig toBool outOfRange conn d).2 ≠ none ↔ conn.Connect ≠ none) ∧
    (ReadMySQLConfig toBool outOfRange conn d).2 = conn.Connect ∧
    (conn.Connect ≠ none → (ReadMySQLConfig toBool outOfRange conn d).1 = d) := by
  cases h : conn.Connect with
  | some err =>
    rw [ReadMySQLConfig_of_connect_error _ _ _ _ err h]
    simp
  | none =>
    rw [ReadMySQLConfig_of_connect_ok _ _ _ _ h]
    simp

/-- C12 (as stated, refuted): on the initial defaults, against a connection
that connects and whose read of `log_slow_verbosity` fails, returning the empty
string with its error, the default verbosity after the probe is the empty
string and no longer `"full"`; likewise the long query time becomes zero. -/
theorem C12_read_error_overwrites :
    samplePerfConn.Connect = none ∧
    (samplePerfConn.GetGlobalVarString "log_slow_verbosity").2 ≠ none ∧
    (ReadMySQLConfig sampleToBool sampleOutOfRange samplePerfConn
        Defaults.initial).1.DEFAULT_SLOW_LOG_VERBOSITY
      ≠ Defaults.initial.DEFAULT_SLOW_LOG_VERBOSITY ∧
    (samplePerfConn.GetGlobalVarNumber "long_query_time").2 ≠ none ∧
    (ReadMySQLConfig sampleToBool sampleOutOfRange samplePerfConn
        Defaults.initial).1.DEFAULT_LONG_QUERY_TIME
      ≠ Defaults.initial.DEFAULT_LONG_QUERY_TIME := by
  decide

/-- C12 (amended): when `Connect` succeeds, `ReadMySQLConfig` returns no error
whatever the five reads return, and the default of each of the five variables
after the call is the value its read returned, coerced as the source does,
whether or not the read returned an error as well. -/
theorem C12_reads_assign (toBool : String → Bool) (outOfRange : Float64 → Nat)
    (conn : Connector) (d : Defaults) (h : conn.Connect = none) :
    (ReadMySQLConfig toBool outOfRange conn d).2 = none ∧
    (ReadMySQLConfig toBool outOfRange conn d).1.DEFAULT_LONG_QUERY_TIME
      = (conn.GetGlobalVarNumber "long_query_time").1 ∧
    (ReadMySQLConfig toBool outOfRange conn d).1.DEFAULT_LOG_SLOW_ADMIN_STATEMENTS
      = toBool (conn.GetGlobalVarString "log_slow_admin_statements").1 ∧
    (ReadMySQLConfig toBool outOfRange conn d).1.DEFAULT_RATE_LIMIT
      = float64ToUint outOfRange (conn.GetGlobalVarNumber "log_slow_rate_limit").1 ∧
    (ReadMySQLConfig toBool outOfRange conn d).1.DEFAULT_LOG_SLOW_SLAVE_STATEMENTS
      = toBool (conn.GetGlobalVarString "log_slow_slave_statements").1 ∧
    (ReadMySQLConfig toBool outOfRange conn d).1.DEFAULT_SLOW_LOG_VERBOSITY
      = (conn.GetGlobalVarString "log_slow_verbosity").1 := by
  rw [ReadMySQLConfig_of_connect_ok _ _ _ _ h]
  exact ⟨rfl, rfl, rfl, rfl, rfl, rfl⟩

/-- C12 (amended) at a connection whose five reads all fail. -/
theorem C12_reads_assign_witness :
    (ReadMySQLConfig sampleToBool sampleOutOfRange samplePerfConn Defaults.initial).2 = none ∧
    (ReadMySQLConfig sampleToBool sampleOutOfRange samplePerfConn
        Defaults.initial).1.DEFAULT_SLOW_LOG_VERBOSITY = "" :=
  have h := C12_reads_assign sampleToBool sampleOutOfRange samplePerfConn Defaults.initial rfl
  ⟨h.1, h.2.2.2.2.2⟩

/-- C13 (as stated, refuted): from the baseline that a probe of a server with
`performance_schema` on has left, a successful probe of a server whose
`performance_schema` reads `0`, which does not coerce to true, leaves the
default strategy at `"perfschema"`, not `"slowlog"`. -/
theorem C13_strategy_not_reverted :
    sampleSlowConn.Connect = none ∧
    sampleToBool (sampleSlowConn.GetGlobalVarString "performance_schema").1 = false ∧
    (ReadMySQLConfig sampleToBool sampleOutOfRange sampleSlowConn
      (ReadMySQLConfig sampleToBool sampleOutOfRange samplePerfConn
        Defaults.initial).1).2 = none ∧
    (ReadMySQLConfig sampleToBool sampleOutOfRange sampleSlowConn
      (ReadMySQLConfig sampleToBool sampleOutOfRange samplePerfConn
        Defaults.initial).1).1.DEFAULT_COLLECT_FROM ≠ "slowlog" := by
  decide

/-- C13 (amended): after a successful `ReadMySQLConfig`, from any prior
baseline, the default strategy is `"perfschema"` if the value read for
`performance_schema` coerces to true, and the strategy of the prior baseline
otherwise; that is `"slowlog"` when the prior strategy is `"slowlog"`. -/
theorem C13_strategy_after_probe (toBool : String → Bool) (outOfRange : Float64 → Nat)
    (conn : Connector) (d : Defaults) (h : conn.Connect = none) :
    (toBool (conn.GetGlobalVarString "performance_schema").1 = true →
      (ReadMySQLConfig toBool outOfRange conn d).1.DEFAULT_COLLECT_FROM = "perfschema") ∧
    (toBool (conn.GetGlobalVarString "performance_schema").1 = false →
      (ReadMySQLConfig toBool outOfRange conn d).1.DEFAULT_COLLECT_FROM
        = d.DEFAULT_COLLECT_FROM) ∧
    (toBool (conn.GetGlobalVarString "performance_schema").1 = false →
      d.DEFAULT_COLLECT_FROM = "slowlog" →
      (ReadMySQLConfig toBool outOfRange conn d).1.DEFAULT_COLLECT_FROM = "slowlog") := by
  rw [ReadMySQLConfig_of_connect_ok _ _ _ _ h]
  refine ⟨fun ht => ?_, fun hf => ?_, fun hf hd => ?_⟩
  · simp [ht]
  · simp [hf]
  · simp [hf, hd]

/-- C13 (amended) at the initial baseline, for a server with
`performance_schema` on and for one with it off. -/
theorem C13_strategy_after_probe_witness :
    (ReadMySQLConfig sampleToBool sampleOutOfRange samplePerfConn
        Defaults.initial).1.DEFAULT_COLLECT_FROM = "perfschema" ∧
    (ReadMySQLConfig sampleToBool sampleOutOfRange sampleSlowConn
        Defaults.initial).1.DEFAULT_COLLECT_FROM = "slowlog" :=
  ⟨(C13_strategy_after_probe sampleToBool sampleOutOfRange samplePerfConn Defaults.initial
      rfl).1 (by decide),
    (C13_strategy_after_probe sampleToBool sampleOutOfRange sampleSlowConn Defaults.initial
      rfl).2.2 (by decide) rfl⟩

/-- C14: in every baseline reachable from the initial defaults through calls
of `ReadMySQLConfig`, successful or not, against any connections, a
configuration that `ValidateConfig` returns without error is accepted by
`GetMySQLConfig`. -/
theorem C14_validated_is_supported (toBool : String → Bool) (outOfRange : Float64 → Nat)
    (d : Defaults) (setConfig : SetConfig) (hd : Reachable toBool outOfRange d)
    (hok : (ValidateConfig d toBool setConfig).2 = none) :
    (GetMySQLConfig (ValidateConfig d toBool setConfig).1).2.2 = none := by
  have hcf := ValidateConfig_collectFrom_of_ok d toBool setConfig hok
  have hvalid : (ValidateConfig d toBool setConfig).1.CollectFrom = "slowlog" ∨
      (ValidateConfig d toBool setConfig).1.CollectFrom = "perfschema" := by
    rw [hcf]
    cases hC : setConfig "CollectFrom" with
    | none => exact hd.collectFrom_valid
    | some v => exact ValidateConfig_override_valid d toBool setConfig v hC hok
  unfold GetMySQLConfig
  rcases hvalid with h | h
  · rw [if_pos h]; rfl
  · have hs : (ValidateConfig d toBool setConfig).1.CollectFrom ≠ "slowlog" := by
      rw [h]; decide
    rw [if_neg hs, if_pos h]; rfl

/-- C14 at the baseline left by a failed probe followed by a probe of a server
with `performance_schema` on, for a map that overrides the interval only. -/
theorem C14_validated_is_supported_witness :
    (GetMySQLConfig (ValidateConfig
      (ReadMySQLConfig sampleToBool sampleOutOfRange samplePerfConn
        (ReadMySQLConfig sampleToBool sampleOutOfRange sampleDownConn Defaults.initial).1).1
      sampleToBool (SetConfig.ofList [("Interval", "30")])).1).2.2 = none :=
  C14_validated_is_supported sampleToBool sampleOutOfRange _
    (SetConfig.ofList [("Interval", "30")])
    (Reachable.probe samplePerfConn _ (Reachable.probe sampleDownConn _ Reachable.initial))
    (by decide)


/-! ## What ValidateConfig returns, case by case -/

/-- The `Integers` block either returns its argument with an error about the
interval bound in the map, or goes on to line 106 with some interval. -/
theorem integers_cases (toBool : String → Bool) (m : SetConfig) (rc : QAN) :
    (∃ val, m "Interval" = some val ∧
      ((∃ err, ValidateConfig.integers toBool m rc
          = (rc, some (ConfigError.invalidInterval val err))) ∨
        ValidateConfig.integers toBool m rc = (rc, some ConfigError.intervalRange))) ∨
    (∃ n, ValidateConfig.integers toBool m rc
        = ValidateConfig.runtime toBool m { rc with Interval := n }) := by
  unfold ValidateConfig.integers
  cases hI : m "Interval" with
  | none => exact Or.inr ⟨rc.Interval, rfl⟩
  | some val =>
    simp only
    cases hp : ParseUint val 32 with
    | error err => exact Or.inl ⟨val, rfl, Or.inl ⟨err, rfl⟩⟩
    | ok n =>
      simp only
      split
      · exact Or.inl ⟨val, rfl, Or.inr rfl⟩
      · exact Or.inr ⟨n, rfl⟩

/-- An error of the `Integers` block comes with the block's argument, unchanged. -/
theorem integers_err (toBool : String → Bool) (m : SetConfig) (rc : QAN)
    (h : (ValidateConfig.integers toBool m rc).2 ≠ none) :
    (ValidateConfig.integers toBool m rc).1 = rc := by
  rcases integers_cases toBool m rc with ⟨val, _, ⟨err, he⟩ | he⟩ | ⟨n, hn⟩
  · rw [he]
  · rw [he]
  · rw [hn, runtime_snd] at h
    exact absurd rfl h

/-- Without an error, the `Integers` block has gone on to line 106. -/
theorem integers_ok (toBool : String → Bool) (m : SetConfig) (rc : QAN)
    (h : (ValidateConfig.integers toBool m rc).2 = none) :
    ∃ n, ValidateConfig.integers toBool m rc
      = ValidateConfig.runtime toBool m { rc with Interval := n } := by
  rcases integers_cases toBool m rc with ⟨val, _, ⟨err, he⟩ | he⟩ | hn
  · rw [he] at h; simp at h
  · rw [he] at h; simp at h
  · exact hn

/-- The error of the `Integers` block is decided by the binding of `Interval`
alone. -/
theorem integers_snd_congr (toBool toBool' : String → Bool) (m m' : SetConfig) (rc rc' : QAN)
    (h : m "Interval" = m' "Interval") :
    (ValidateConfig.integers toBool m rc).2 = (ValidateConfig.integers toBool' m' rc').2 := by
  unfold ValidateConfig.integers
  rw [← h]
  cases m "Interval" with
  | none => simp only [runtime_snd]
  | some val =>
    simp only
    cases ParseUint val 32 with
    | error err => rfl
    | ok n =>
      simp only
      split
      · rfl
      · simp only [runtime_snd]

/-- The `Integers` block and what follows never look at `CollectFrom`: setting
it before or after the block is the same. -/
theorem integers_setCollectFrom (toBool : String → Bool) (m : SetConfig) (rc : QAN)
    (c : String) :
    ValidateConfig.integers toBool m { rc with CollectFrom := c } =
      ({ (ValidateConfig.integers toBool m rc).1 with CollectFrom := c },
        (ValidateConfig.integers toBool m rc).2) := by
  unfold ValidateConfig.integers
  cases m "Interval" with
  | none =>
    simp only
    refine Prod.ext ?_ ?_
    · simp only [runtime_fst]
    · simp only [runtime_snd]
  | some val =>
    simp only
    cases ParseUint val 32 with
    | error err => rfl
    | ok n =>
      simp only
      split
      · rfl
      · refine Prod.ext ?_ ?_
        · simp only [runtime_fst]
        · simp only [runtime_snd]

/-- The binding of `CollectFrom` is absent, recognised, or unrecognised. -/
theorem collectFrom_cases (m : SetConfig) :
    CollectFromAbsentOrValid m ∨
      ∃ v, m "CollectFrom" = some v ∧ v ≠ "slowlog" ∧ v ≠ "perfschema" := by
  unfold CollectFromAbsentOrValid
  cases h : m "CollectFrom" with
  | none => exact Or.inl (Or.inl rfl)
  | some v =>
    by_cases h1 : v = "slowlog"
    · exact Or.inl (Or.inr (Or.inl (by rw [h1])))
    · by_cases h2 : v = "perfschema"
      · exact Or.inl (Or.inr (Or.inr (by rw [h2])))
      · exact Or.inr ⟨v, rfl, h1, h2⟩

/-- On an unrecognised `CollectFrom`, `ValidateConfig` returns the seed and the
`CollectFrom` error. -/
theorem ValidateConfig_of_bad_collectFrom (d : Defaults) (toBool : String → Bool)
    (m : SetConfig) (v : String) (hv : m "CollectFrom" = some v)
    (h1 : v ≠ "slowlog") (h2 : v ≠ "perfschema") :
    ValidateConfig d toBool m = (ValidateConfig.seed d m, some ConfigError.collectFrom) := by
  unfold ValidateConfig
  simp only [hv]
  rw [if_pos ⟨h1, h2⟩]

/-- The error of `ValidateConfig` is decided by the bindings of `CollectFrom`
and `Interval` alone. -/
theorem ValidateConfig_snd_congr (d d' : Defaults) (toBool toBool' : String → Bool)
    (m m' : SetConfig) (hC : m "CollectFrom" = m' "CollectFrom")
    (hI : m "Interval" = m' "Interval") :
    (ValidateConfig d toBool m).2 = (ValidateConfig d' toBool' m').2 := by
  rcases collectFrom_cases m with h | ⟨v, hv, h1, h2⟩
  · have h' : CollectFromAbsentOrValid m' := by
      unfold CollectFromAbsentOrValid at h ⊢
      rw [← hC]; exact h
    rw [ValidateConfig_of_collectFrom d toBool m h, ValidateConfig_of_collectFrom d' toBool' m' h']
    exact integers_snd_congr _ _ _ _ _ _ hI
  · rw [ValidateConfig_of_bad_collectFrom d toBool m v hv h1 h2,
      ValidateConfig_of_bad_collectFrom d' toBool' m' v (hC ▸ hv) h1 h2]

/-- Without an error, `ValidateConfig` has run line 106 and the `Bools` block on
the seed with the strategy and some interval set. -/
theorem ValidateConfig_ok (d : Defaults) (toBool : String → Bool) (m : SetConfig)
    (h : (ValidateConfig d toBool m).2 = none) :
    ∃ n, ValidateConfig d toBool m = ValidateConfig.runtime toBool m
      { ValidateConfig.seed d m with
        CollectFrom := (m "CollectFrom").getD d.DEFAULT_COLLECT_FROM
        Interval := n } := by
  rcases collectFrom_cases m with hC | ⟨v, hv, h1, h2⟩
  · rw [ValidateConfig_of_collectFrom d toBool m hC] at h ⊢
    exact integers_ok _ _ _ h
  · rw [ValidateConfig_of_bad_collectFrom d toBool m v hv h1 h2] at h
    simp at h


/-! ## Errors of ValidateConfig -/

/-- C15 (as stated, refuted): with the initial defaults, on the map with
`CollectFrom = "perfschema"` and `Interval = "abc"`, `ValidateConfig` returns an
error together with `CollectFrom = "perfschema"`, which is not the baseline
default `"slowlog"`. -/
theorem C15_partial_collectFrom :
    (ValidateConfig Defaults.initial sampleToBool
      (SetConfig.ofList [("CollectFrom", "perfschema"), ("Interval", "abc")])).2 ≠ none ∧
    (ValidateConfig Defaults.initial sampleToBool
      (SetConfig.ofList [("CollectFrom", "perfschema"), ("Interval", "abc")])).1.CollectFrom
      ≠ Defaults.initial.DEFAULT_COLLECT_FROM := by
  decide

/-- C15 (amended): whenever `ValidateConfig` returns an error, the configuration
returned with it has `Interval` and `ExampleQueries` equal to the baseline
defaults; its `CollectFrom` is the baseline default when the key is absent or
bound to an unrecognised value, and is the override when the key is bound to
`"slowlog"` or `"perfschema"` (the error then comes from `Interval`). -/
theorem C15_error_keeps_defaults (d : Defaults) (toBool : String → Bool)
    (setConfig : SetConfig) (herr : (ValidateConfig d toBool setConfig).2 ≠ none) :
    (ValidateConfig d toBool setConfig).1.Interval = d.DEFAULT_INTERVAL ∧
    (ValidateConfig d toBool setConfig).1.ExampleQueries = d.DEFAULT_EXAMPLE_QUERIES ∧
    (setConfig "CollectFrom" = none →
      (ValidateConfig d toBool setConfig).1.CollectFrom = d.DEFAULT_COLLECT_FROM) ∧
    (∀ v, setConfig "CollectFrom" = some v → v ≠ "slowlog" → v ≠ "perfschema" →
      (ValidateConfig d toBool setConfig).1.CollectFrom = d.DEFAULT_COLLECT_FROM) ∧
    (∀ v, setConfig "CollectFrom" = some v → (v = "slowlog" ∨ v = "perfschema") →
      (ValidateConfig d toBool setConfig).1.CollectFrom = v) := by
  rcases collectFrom_cases setConfig with hC | ⟨w, hw, h1, h2⟩
  · rw [ValidateConfig_of_collectFrom d toBool setConfig hC] at herr ⊢
    rw [integers_err _ _ _ herr]
    refine ⟨rfl, rfl, fun hn => ?_, fun v hv hv1 hv2 => ?_, fun v hv _ => ?_⟩
    · simp [hn, ValidateConfig.seed]
    · exfalso
      rcases hC with hC | hC | hC
      · rw [hC] at hv; simp at hv
      · rw [hC] at hv; exact hv1 (Option.some.inj hv).symm
      · rw [hC] at hv; exact hv2 (Option.some.inj hv).symm
    · simp [hv]
  · rw [ValidateConfig_of_bad_collectFrom d toBool setConfig w hw h1 h2]
    refine ⟨rfl, rfl, fun _ => rfl, fun _ _ _ _ => rfl, fun v hv hvv => ?_⟩
    exfalso
    rw [hw] at hv
    have hwv : w = v := Option.some.inj hv
    rcases hvv with h | h
    · exact h1 (hwv.trans h)
    · exact h2 (hwv.trans h)

/-- C15 (amended) at a valid `CollectFrom` followed by an unparseable
`Interval`. -/
theorem C15_error_keeps_defaults_witness :
    (ValidateConfig Defaults.initial sampleToBool
      (SetConfig.ofList [("CollectFrom", "perfschema"), ("Interval", "abc")])).1.Interval = 60 ∧
    (ValidateConfig Defaults.initial sampleToBool
      (SetConfig.ofList [("CollectFrom", "perfschema"), ("Interval", "abc")])).1.CollectFrom
      = "perfschema" :=
  have h := C15_error_keeps_defaults Defaults.initial sampleToBool
    (SetConfig.ofList [("CollectFrom", "perfschema"), ("Interval", "abc")]) (by decide)
  ⟨h.1, h.2.2.2.2 "perfschema" (by decide) (Or.inr rfl)⟩

/-- A text between two others is contained in their concatenation. -/
theorem contains_middle (a b c : String) : Contains (a ++ b ++ c) b := by
  unfold Contains
  rw [String.data_append, String.data_append]
  exact ⟨a.data, c.data, rfl⟩

/-- What the start of a message contains, the message contains. -/
theorem contains_append_right (a b sub : String) (h : Contains a sub) :
    Contains (a ++ b) sub := by
  unfold Contains at h ⊢
  rw [String.data_append]
  exact List.IsInfix.trans h (List.infix_append' [] a.data b.data)

/-- C16 (as stated, refuted): on `CollectFrom = "file"` the message of the error
does not contain `file`, and on `Interval = "3601"` the message of the error
does not contain `3601`. -/
theorem C16_message_without_value :
    (ValidateConfig Defaults.initial sampleToBool
      (SetConfig.ofList [("CollectFrom", "file")])).2 = some ConfigError.collectFrom ∧
    ¬ Contains (ConfigError.Error (fun s => s) ConfigError.collectFrom) "file" ∧
    (ValidateConfig Defaults.initial sampleToBool
      (SetConfig.ofList [("Interval", "3601")])).2 = some ConfigError.intervalRange ∧
    ¬ Contains (ConfigError.Error (fun s => s) ConfigError.intervalRange) "3601" := by
  decide

/-- C16 (amended): every error returned by `ValidateConfig` names the offending
field in its message. The error for an unparseable `Interval` also contains the
string supplied for it. The errors for an unrecognised `CollectFrom` and for an
`Interval` out of range are fixed texts, which name the field and the accepted
values or bounds. -/
theorem C16_message_names_field (d : Defaults) (toBool : String → Bool)
    (setConfig : SetConfig) (quote : String → String) (e : ConfigError)
    (he : (ValidateConfig d toBool setConfig).2 = some e) :
    (e = ConfigError.collectFrom ∧
      (∃ v, setConfig "CollectFrom" = some v ∧ v ≠ "slowlog" ∧ v ≠ "perfschema") ∧
      e.Error quote = "CollectFrom must be 'slowlog' or 'perfschema'" ∧
      Contains (e.Error quote) "CollectFrom") ∨
    (∃ val err, e = ConfigError.invalidInterval val err ∧
      setConfig "Interval" = some val ∧
      Contains (e.Error quote) "Interval" ∧ Contains (e.Error quote) val) ∨
    (e = ConfigError.intervalRange ∧
      (∃ val, setConfig "Interval" = some val) ∧
      e.Error quote = "Interval must be > 0 and <= 3600 (1 hour)" ∧
      Contains (e.Error quote) "Interval") := by
  rcases collectFrom_cases setConfig with hC | ⟨w, hw, h1, h2⟩
  · rw [ValidateConfig_of_collectFrom d toBool setConfig hC] at he
    rcases integers_cases toBool setConfig
      { ValidateConfig.seed d setConfig with
        CollectFrom := (setConfig "CollectFrom").getD d.DEFAULT_COLLECT_FROM }
      with ⟨val, hval, ⟨err, hi⟩ | hi⟩ | ⟨n, hn⟩
    · rw [hi] at he
      have hee : ConfigError.invalidInterval val err = e := Option.some.inj he
      subst hee
      refine Or.inr (Or.inl ⟨val, err, rfl, hval, ?_, ?_⟩)
      · have h0 : Contains ("invalid " ++ "Interval" ++ ": '") "Interval" :=
          contains_middle _ _ _
        exact contains_append_right _ _ _
          (contains_append_right _ _ _ (contains_append_right _ _ _ h0))
      · exact contains_append_right _ _ _ (contains_middle _ _ _)
    · rw [hi] at he
      have hee : ConfigError.intervalRange = e := Option.some.inj he
      subst hee
      have hc : Contains "Interval must be > 0 and <= 3600 (1 hour)" "Interval" := by decide
      exact Or.inr (Or.inr ⟨rfl, ⟨val, hval⟩, rfl, hc⟩)
    · rw [hn, runtime_snd] at he
      simp at he
  · rw [ValidateConfig_of_bad_collectFrom d toBool setConfig w hw h1 h2] at he
    have hee : ConfigError.collectFrom = e := Option.some.inj he
    subst hee
    have hc : Contains "CollectFrom must be 'slowlog' or 'perfschema'" "CollectFrom" := by decide
    exact Or.inl ⟨rfl, ⟨w, hw, h1, h2⟩, rfl, hc⟩

/-- C16 (amended) at an unparseable `Interval`: the message contains the field
name and the string `abc`. -/
theorem C16_message_names_field_witness :
    Contains ((ConfigError.invalidInterval "abc"
      ⟨"ParseUint", "abc", ParseErr.ErrSyntax⟩).Error (fun s => s)) "Interval" ∧
    Contains ((ConfigError.invalidInterval "abc"
      ⟨"ParseUint", "abc", ParseErr.ErrSyntax⟩).Error (fun s => s)) "abc" := by
  have hrun : (ValidateConfig Defaults.initial sampleToBool
      (SetConfig.ofList [("Interval", "abc")])).2
      = some (ConfigError.invalidInterval "abc" ⟨"ParseUint", "abc", ParseErr.ErrSyntax⟩) := by
    decide
  rcases C16_message_names_field Defaults.initial sampleToBool
    (SetConfig.ofList [("Interval", "abc")]) (fun s => s) _ hrun
    with h | ⟨val, err, h, _, hI, hv⟩ | h
  · exact absurd h.1 (by decide)
  · cases h
    exact ⟨hI, hv⟩
  · exact absurd h.1 (by decide)


/-! ## Fields without an override, and the coerced flag -/

/-- The `Integers` block and what follows leave `UUID`, `MaxSlowLogSize` and
`ReportLimit` as they were, whether they end in an error or not. -/
theorem integers_frame (toBool : String → Bool) (m : SetConfig) (rc : QAN) :
    (ValidateConfig.integers toBool m rc).1.UUID = rc.UUID ∧
    (ValidateConfig.integers toBool m rc).1.MaxSlowLogSize = rc.MaxSlowLogSize ∧
    (ValidateConfig.integers toBool m rc).1.ReportLimit = rc.ReportLimit := by
  rcases integers_cases toBool m rc with ⟨val, _, ⟨err, he⟩ | he⟩ | ⟨n, hn⟩
  · rw [he]; exact ⟨rfl, rfl, rfl⟩
  · rw [he]; exact ⟨rfl, rfl, rfl⟩
  · rw [hn, runtime_fst]; exact ⟨rfl, rfl, rfl⟩

/-- C17: for every map, with or without an error, the configuration that
`ValidateConfig` returns has the `UUID` of the map (the empty string when the
key is absent), and the baseline defaults in `MaxSlowLogSize` and
`ReportLimit`. -/
theorem C17_untouched_fields (d : Defaults) (toBool : String → Bool) (setConfig : SetConfig) :
    (ValidateConfig d toBool setConfig).1.UUID = (setConfig "UUID").getD "" ∧
    (setConfig "UUID" = none → (ValidateConfig d toBool setConfig).1.UUID = "") ∧
    (ValidateConfig d toBool setConfig).1.MaxSlowLogSize = d.DEFAULT_MAX_SLOW_LOG_SIZE ∧
    (ValidateConfig d toBool setConfig).1.ReportLimit = d.DEFAULT_REPORT_LIMIT := by
  have key : (ValidateConfig d toBool setConfig).1.UUID = (setConfig "UUID").getD "" ∧
      (ValidateConfig d toBool setConfig).1.MaxSlowLogSize = d.DEFAULT_MAX_SLOW_LOG_SIZE ∧
      (ValidateConfig d toBool setConfig).1.ReportLimit = d.DEFAULT_REPORT_LIMIT := by
    rcases collectFrom_cases setConfig with hC | ⟨w, hw, h1, h2⟩
    · rw [ValidateConfig_of_collectFrom d toBool setConfig hC]
      obtain ⟨hu, hm, hr⟩ := integers_frame toBool setConfig
        { ValidateConfig.seed d setConfig with
          CollectFrom := (setConfig "CollectFrom").getD d.DEFAULT_COLLECT_FROM }
      rw [hu, hm, hr]
      exact ⟨rfl, rfl, rfl⟩
    · rw [ValidateConfig_of_bad_collectFrom d toBool setConfig w hw h1 h2]
      exact ⟨rfl, rfl, rfl⟩
  refine ⟨key.1, fun hn => ?_, key.2.1, key.2.2⟩
  rw [key.1, hn]
  rfl

/-- C18: the `ExampleQueries` override is coerced and never validated: binding
the key to any value, or removing it, leaves the error of `ValidateConfig` as it
was, and without an error the resolved `ExampleQueries` is `toBool` of the value
when the key is present and the baseline default when it is absent. -/
theorem C18_exampleQueries_coerced (d : Defaults) (toBool : String → Bool)
    (setConfig : SetConfig) (v : String) :
    (ValidateConfig d toBool (setConfig.insert "ExampleQueries" v)).2
      = (ValidateConfig d toBool setConfig).2 ∧
    (ValidateConfig d toBool (setConfig.erase "ExampleQueries")).2
      = (ValidateConfig d toBool setConfig).2 ∧
    ((ValidateConfig d toBool setConfig).2 = none →
      (∀ w, setConfig "ExampleQueries" = some w →
        (ValidateConfig d toBool setConfig).1.ExampleQueries = toBool w) ∧
      (setConfig "ExampleQueries" = none →
        (ValidateConfig d toBool setConfig).1.ExampleQueries = d.DEFAULT_EXAMPLE_QUERIES)) := by
  refine ⟨?_, ?_, fun hok => ?_⟩
  · exact ValidateConfig_snd_congr d d toBool toBool _ _
      (by simp [SetConfig.insert]) (by simp [SetConfig.insert])
  · exact ValidateConfig_snd_congr d d toBool toBool _ _
      (by simp [SetConfig.erase]) (by simp [SetConfig.erase])
  · obtain ⟨n, hn⟩ := ValidateConfig_ok d toBool setConfig hok
    rw [hn, runtime_fst]
    constructor
    · intro w hw
      simp [hw]
    · intro hnone
      simp [hnone, ValidateConfig.seed]

/-- C19 (as stated, refuted): on the map with `CollectFrom = "bogus"`, which
contains the key, `ValidateConfig` before and after a probe of a server with
`performance_schema` on returns configurations that differ, in `CollectFrom`. -/
theorem C19_invalid_collectFrom_differs :
    SetConfig.ofList [("CollectFrom", "bogus")] "CollectFrom" = some "bogus" ∧
    (ValidateConfig
      (ReadMySQLConfig sampleToBool sampleOutOfRange samplePerfConn Defaults.initial).1
      sampleToBool (SetConfig.ofList [("CollectFrom", "bogus")])).1
    ≠ (ValidateConfig Defaults.initial sampleToBool
      (SetConfig.ofList [("CollectFrom", "bogus")])).1 := by
  decide

/-- Two baselines that differ in the strategy only, as far as `ValidateConfig`
reads them, give the same result up to `CollectFrom`. -/
theorem ValidateConfig_congr (d d' : Defaults) (toBool : String → Bool) (m : SetConfig)
    (h1 : d'.DEFAULT_INTERVAL = d.DEFAULT_INTERVAL)
    (h2 : d'.DEFAULT_MAX_SLOW_LOG_SIZE = d.DEFAULT_MAX_SLOW_LOG_SIZE)
    (h3 : d'.DEFAULT_EXAMPLE_QUERIES = d.DEFAULT_EXAMPLE_QUERIES)
    (h4 : d'.DEFAULT_WORKER_RUNTIME = d.DEFAULT_WORKER_RUNTIME)
    (h5 : d'.DEFAULT_REPORT_LIMIT = d.DEFAULT_REPORT_LIMIT) :
    ∃ c, ValidateConfig d' toBool m =
        ({ (ValidateConfig d toBool m).1 with CollectFrom := c }, (ValidateConfig d toBool m).2) ∧
      (∀ v, m "CollectFrom" = some v → (v = "slowlog" ∨ v = "perfschema") →
        c = (ValidateConfig d toBool m).1.CollectFrom) := by
  have hseed : ValidateConfig.seed d' m =
      { ValidateConfig.seed d m with CollectFrom := d'.DEFAULT_COLLECT_FROM } := by
    unfold ValidateConfig.seed
    rw [h1, h2, h3, h4, h5]
  rcases collectFrom_cases m with hC | ⟨w, hw, hw1, hw2⟩
  · have hL : ({ ValidateConfig.seed d' m with
          CollectFrom := (m "CollectFrom").getD d'.DEFAULT_COLLECT_FROM } : QAN) =
        { ValidateConfig.seed d m with
          CollectFrom := (m "CollectFrom").getD d'.DEFAULT_COLLECT_FROM } := by
      rw [hseed]
    have e1 := integers_setCollectFrom toBool m (ValidateConfig.seed d m)
      ((m "CollectFrom").getD d'.DEFAULT_COLLECT_FROM)
    have e2 := integers_setCollectFrom toBool m (ValidateConfig.seed d m)
      ((m "CollectFrom").getD d.DEFAULT_COLLECT_FROM)
    rw [ValidateConfig_of_collectFrom d' toBool m hC, ValidateConfig_of_collectFrom d toBool m hC,
      hL, e1, e2]
    refine ⟨(m "CollectFrom").getD d'.DEFAULT_COLLECT_FROM, rfl, ?_⟩
    intro v hv _
    rw [hv]
    rfl
  · rw [ValidateConfig_of_bad_collectFrom d' toBool m w hw hw1 hw2,
      ValidateConfig_of_bad_collectFrom d toBool m w hw hw1 hw2, hseed]
    refine ⟨d'.DEFAULT_COLLECT_FROM, rfl, ?_⟩
    intro v hv hvv
    exfalso
    rw [hw] at hv
    have hwv : w = v := Option.some.inj hv
    rcases hvv with h | h
    · exact hw1 (hwv.trans h)
    · exact hw2 (hwv.trans h)

/-- C19 (amended): for every connection and every map, `ValidateConfig` after
the probe returns the same error as before it and a configuration with the same
`UUID`, `Interval`, `MaxSlowLogSize`, `ExampleQueries`, `WorkerRunTime` and
`ReportLimit`; only `CollectFrom` may differ, and the two results are equal
when the map binds `CollectFrom` to `"slowlog"` or `"perfschema"`. -/
theorem C19_probe_changes_strategy_only (toBool : String → Bool) (outOfRange : Float64 → Nat)
    (conn : Connector) (d : Defaults) (setConfig : SetConfig) :
    (ValidateConfig (ReadMySQLConfig toBool outOfRange conn d).1 toBool setConfig).2
      = (ValidateConfig d toBool setConfig).2 ∧
    (ValidateConfig (ReadMySQLConfig toBool outOfRange conn d).1 toBool setConfig).1.UUID
      = (ValidateConfig d toBool setConfig).1.UUID ∧
    (ValidateConfig (ReadMySQLConfig toBool outOfRange conn d).1 toBool setConfig).1.Interval
      = (ValidateConfig d toBool setConfig).1.Interval ∧
    (ValidateConfig (ReadMySQLConfig toBool outOfRange conn d).1 toBool
        setConfig).1.MaxSlowLogSize
      = (ValidateConfig d toBool setConfig).1.MaxSlowLogSize ∧
    (ValidateConfig (ReadMySQLConfig toBool outOfRange conn d).1 toBool
        setConfig).1.ExampleQueries
      = (ValidateConfig d toBool setConfig).1.ExampleQueries ∧
    (ValidateConfig (ReadMySQLConfig toBool outOfRange conn d).1 toBool
        setConfig).1.WorkerRunTime
      = (ValidateConfig d toBool setConfig).1.WorkerRunTime ∧
    (ValidateConfig (ReadMySQLConfig toBool outOfRange conn d).1 toBool setConfig).1.ReportLimit
      = (ValidateConfig d toBool setConfig).1.ReportLimit ∧
    (∀ v, setConfig "CollectFrom" = some v → (v = "slowlog" ∨ v = "perfschema") →
      ValidateConfig (ReadMySQLConfig toBool outOfRange conn d).1 toBool setConfig
        = ValidateConfig d toBool setConfig) := by
  obtain ⟨h1, h2, h3, h4, h5⟩ := ReadMySQLConfig_frame toBool outOfRange conn d
  obtain ⟨c, hc, hcv⟩ := ValidateConfig_congr d (ReadMySQLConfig toBool outOfRange conn d).1
    toBool setConfig h1 h2 h3 h4 h5
  rw [hc]
  refine ⟨rfl, rfl, rfl, rfl, rfl, rfl, rfl, fun v hv hvv => ?_⟩
  rw [hcv v hv hvv]

/-- C20: on every map that `ValidateConfig` accepts, from any baseline, the
resolved `WorkerRunTime` is at most the resolved `Interval`, and is below it
when the interval is not zero. -/
theorem C20_runtime_fits_interval (d : Defaults) (toBool : String → Bool)
    (setConfig : SetConfig) (hok : (ValidateConfig d toBool setConfig).2 = none) :
    (ValidateConfig d toBool setConfig).1.WorkerRunTime
      ≤ (ValidateConfig d toBool setConfig).1.Interval ∧
    (0 < (ValidateConfig d toBool setConfig).1.Interval →
      (ValidateConfig d toBool setConfig).1.WorkerRunTime
        < (ValidateConfig d toBool setConfig).1.Interval) := by
  obtain ⟨n, hn⟩ := ValidateConfig_ok d toBool setConfig hok
  rw [hn, runtime_fst]
  simp only
  constructor
  · rcases Nat.eq_zero_or_pos n with h0 | hpos
    · rw [h0, workerRunTime_zero]
    · exact Nat.le_of_lt (workerRunTime_lt n hpos)
  · exact workerRunTime_lt n

/-- C20 at `Interval = "1"`, where the run time is zero, below the interval. -/
theorem C20_runtime_fits_interval_witness :
    (ValidateConfig Defaults.initial sampleToBool
        (SetConfig.ofList [("Interval", "1")])).1.WorkerRunTime
      < (ValidateConfig Defaults.initial sampleToBool
        (SetConfig.ofList [("Interval", "1")])).1.Interval :=
  (C20_runtime_fits_interval Defaults.initial sampleToBool
    (SetConfig.ofList [("Interval", "1")]) (by decide)).2 (by decide)

end Qan
